import Mathlib

/-!
# MapManager (frontend/map.js): station data to overlay transformation

A shallow embedding of the `MapManager` class of `frontend/map.js`.

* JavaScript numbers are modelled by `JSNum`: `NaN`, the two infinities and the
  finite values, the latter as exact rationals (rounding of IEEE doubles and the
  sign of zero are outside the model).
* Station fields are dynamically typed in the source; they are modelled by
  `JSVal` (`undefined`, `null`, a number or a string), so that the truthiness
  tests (`station.t && ...`) and the strict comparisons (`!== '-999'`,
  `!== undefined`) of the source keep their meaning.
* The built-ins `parseFloat` (on strings) and number-to-string conversion are
  parameters (`Builtins`); every general theorem holds for all of them.
* The Leaflet map is modelled by the list of layers it currently holds; layer
  objects carry an identity, and `removeLayer` removes by identity. The map is
  taken as initialised (`initMap` has run). What Leaflet does when a marker or
  a heat layer is built is a parameter (`Renderer`): `L.marker` may throw on
  its coordinates, and `L.heatLayer(...).addTo(map)` may throw before or after
  the map has registered the layer.
* The status label, the legend and the buttons are DOM state outside the model.
* The asynchronous fetch of `loadStationsData` is modelled by its outcome
  (`FetchResult`), the promise returned by the state afterwards together with
  the value it resolves with or the error it rejects with.
-/

namespace MapJS

/-! ## JavaScript numbers and values -/

/-- A JavaScript number: `NaN`, `-Infinity`, a finite value, or `Infinity`. -/
inductive JSNum where
  | nan
  | negInf
  | fin (q : ℚ)
  | posInf
  deriving DecidableEq

/-- A JavaScript value as found in a station record. -/
inductive JSVal where
  | undefined
  | null
  | num (x : JSNum)
  | str (s : String)
  deriving DecidableEq

/-- The global `isNaN` on a number. -/
def isNaN : JSNum → Bool
  | .nan => true
  | _ => false

/-- The expression `x - c` for a finite constant `c`. -/
def JSNum.subFin : JSNum → ℚ → JSNum
  | .nan, _ => .nan
  | .negInf, _ => .negInf
  | .fin q, c => .fin (q - c)
  | .posInf, _ => .posInf

/-- The expression `x / c` for a finite constant `c > 0`. -/
def JSNum.divPos : JSNum → ℚ → JSNum
  | .nan, _ => .nan
  | .negInf, _ => .negInf
  | .fin q, c => .fin (q / c)
  | .posInf, _ => .posInf

/-- The function `Math.min` on two arguments. -/
def mathMin : JSNum → JSNum → JSNum
  | .nan, _ => .nan
  | _, .nan => .nan
  | .negInf, _ => .negInf
  | _, .negInf => .negInf
  | .posInf, b => b
  | a, .posInf => a
  | .fin a, .fin b => .fin (min a b)

/-- The function `Math.max` on two arguments. -/
def mathMax : JSNum → JSNum → JSNum
  | .nan, _ => .nan
  | _, .nan => .nan
  | .posInf, _ => .posInf
  | _, .posInf => .posInf
  | .negInf, b => b
  | a, .negInf => a
  | .fin a, .fin b => .fin (max a b)

/-- The remainder `x % m` for a finite constant `m > 0`: the result has the
sign of the dividend (the quotient is truncated toward zero). -/
def JSNum.rem : JSNum → ℚ → JSNum
  | .fin q, m => if 0 ≤ q then .fin (q - m * ⌊q / m⌋) else .fin (q - m * ⌈q / m⌉)
  | _, _ => .nan

/-- The function `Math.round`: nearest integer, ties toward `+Infinity`. -/
def mathRound : JSNum → JSNum
  | .fin q => .fin ⌊q + 1 / 2⌋
  | x => x

/-- Array element access `xs[idx]` with a number as key: an element for an
integer index inside the array, `undefined` (`none`) otherwise. -/
def arrayGet (xs : List String) : JSNum → Option String
  | .fin q => if q.den = 1 ∧ 0 ≤ q.num then xs.get? q.num.toNat else none
  | _ => none

/-- JavaScript truthiness (`ToBoolean`). -/
def truthy : JSVal → Bool
  | .undefined => false
  | .null => false
  | .num .nan => false
  | .num (.fin q) => decide (q ≠ 0)
  | .num _ => true
  | .str s => decide (s ≠ "")

/-- The test `v !== '-999'`. -/
def notSentinel (v : JSVal) : Bool := decide (v ≠ .str "-999")

/-- The test `v !== undefined`. -/
def defined (v : JSVal) : Bool := decide (v ≠ .undefined)

/-- The built-in conversions the source relies on: `parseFloat` on a string
and the conversion of a number to a string. -/
structure Builtins where
  parseString : String → JSNum
  numToString : JSNum → String

/-- The global `parseFloat`: a number is converted to a string and parsed
back, which gives the number itself; `undefined` and `null` give `NaN`. -/
def parseFloat (b : Builtins) : JSVal → JSNum
  | .undefined => .nan
  | .null => .nan
  | .num x => x
  | .str s => b.parseString s

/-- String conversion of a value inside a template literal. -/
def toStr (b : Builtins) : JSVal → String
  | .undefined => "undefined"
  | .null => "null"
  | .num x => b.numToString x
  | .str s => s

/-! ## Unit normalizer and cardinal resolver -/

/-- `MapManager.normalizeValue(value, type)`. -/
def normalizeValue (value : JSNum) (type : String) : JSNum :=
  if type = "temperature" then
    mathMax (.fin 0) (mathMin (.fin 1) ((value.subFin 15).divPos 20))
  else if type = "humidity" then
    mathMax (.fin 0) (mathMin (.fin 1) (value.divPos 100))
  else .fin (1 / 2)

/-- The table `directions` of `createTooltipContent`. -/
def directions : List String :=
  ["N", "NNE", "NE", "ENE", "E", "ESE", "SE", "SSE", "S", "SSW", "SW", "WSW", "W", "WNW",
   "NW", "NNW", "N"]

/-- The index `Math.round((wd % 360) / 22.5)` of `createTooltipContent`. -/
def cardinalIndex (wd : JSNum) : JSNum :=
  mathRound ((wd.rem 360).divPos (45 / 2))

/-- The cardinal computation of `createTooltipContent`:
`directions[Math.round((wd % 360) / 22.5)]`, `none` standing for `undefined`. -/
def cardinal (wd : JSNum) : Option String :=
  arrayGet directions (cardinalIndex wd)

/-! ## Data model -/

/-- The `info` object of a station record. -/
structure Info where
  latitud : JSVal
  longitud : JSVal
  nombre : JSVal
  deriving DecidableEq

/-- One station record of the dataset. `info = none` stands for a falsy
`station.info`; `oneH` is the field `station['1h']`. -/
structure Station where
  info : Option Info
  t : JSVal
  h : JSVal
  wd : JSVal
  ws : JSVal
  p : JSVal
  p1h : JSVal
  oneH : JSVal
  deriving DecidableEq

/-- The values of a dataset object, in property enumeration order (the order of
both `Object.keys` and `Object.values`); `none` is a falsy entry. -/
abbrev Dataset := List (Option Station)

/-- The value held by `this.stationsData` (and by `response.data`): `undefined`
or `null`, another value that is not an object, or a dataset object. -/
inductive StationsData where
  | nullish
  | other
  | object (stations : Dataset)
  deriving DecidableEq

/-- A heatmap point `[lat, lng, intensity]`. -/
structure HeatPoint where
  lat : JSNum
  lng : JSNum
  intensity : JSNum
  deriving DecidableEq

/-- A marker built by `L.marker`, with the identity of the object, the icon
tone and the bound tooltip. -/
structure Marker where
  id : Nat
  lat : JSVal
  lng : JSVal
  tone : String
  tooltip : String
  deriving DecidableEq

/-- A heat layer built by `L.heatLayer(data, options)`, with the
identity of the object. -/
structure HeatLayer where
  id : Nat
  data : List HeatPoint
  gradient : List (ℚ × String)
  deriving DecidableEq

/-- A layer held by the Leaflet map. -/
inductive Layer where
  | marker (m : Marker)
  | heat (h : HeatLayer)
  deriving DecidableEq

/-- Identity of a layer object. -/
def Layer.id : Layer → Nat
  | .marker m => m.id
  | .heat h => h.id

/-- `map.addLayer(l)` (also `l.addTo(map)`): no effect when the map already has
the layer. -/
def addLayer (l : Layer) (layers : List Layer) : List Layer :=
  if layers.any (fun x => x.id == l.id) then layers else layers ++ [l]

/-- `map.removeLayer(l)` for the layer object of identity `id`. -/
def removeLayer (id : Nat) (layers : List Layer) : List Layer :=
  layers.filter (fun x => x.id != id)

/-- The heat layers among the layers of the map. -/
def heatLayers : List Layer → List HeatLayer
  | [] => []
  | .heat h :: ls => h :: heatLayers ls
  | .marker _ :: ls => heatLayers ls

/-- Outcome of `L.heatLayer(data, options).addTo(this.map)`: the layer is
registered by the map and returned; or the call throws before the map has
registered the layer; or the map registers the layer and the call then throws
(inside the `onAdd` of the layer). -/
inductive HeatLayerOutcome where
  | added
  | throwsBefore
  | throwsAfter
  deriving DecidableEq

/-- Leaflet as seen by the manager: whether `L.heatLayer` is a function, the
outcome of building and adding a heat layer for given points, and the message
of the error thrown by `L.marker([lat, lng], options)`, if it throws. -/
structure Renderer where
  heatLayerAvailable : Bool
  heatLayer : List HeatPoint → HeatLayerOutcome
  markerError : JSVal → JSVal → Option String

/-- A value thrown: an error with its message, or the `TypeError` of
`Object.keys` applied to `undefined` or `null`. -/
inductive JSError where
  | thrown (e : String)
  | typeError
  deriving DecidableEq

/-- The fields of a `MapManager` instance whose map has been initialised:
`layers` are the layers held by `this.map`, `nextId` is the identity given to
the next layer object created. The status label, legend and buttons are DOM
state outside the model. -/
structure MapManager where
  layers : List Layer
  markers : List Marker
  stationsData : StationsData
  heatmapLayer : Option HeatLayer
  currentHeatmapType : Option String
  stationsVisible : Bool
  nextId : Nat

/-- The state after the constructor and `initMap`. -/
def MapManager.init : MapManager :=
  { layers := [], markers := [], stationsData := .object [], heatmapLayer := none,
    currentHeatmapType := none, stationsVisible := true, nextId := 0 }

/-! ## Station classifier and tooltip composer -/

/-- The marker tiers, one per tone of `createStationMarker`. -/
inductive MarkerTier where
  | Minimal
  | Partial
  | Full
  deriving DecidableEq

/-- The tone token of a tier. -/
def MarkerTier.tone : MarkerTier → String
  | .Minimal => "var(--marker-blue, #4cb3ff)"
  | .Partial => "var(--marker-partial, #5a85ff)"
  | .Full => "var(--marker-full, #2bd4ff)"

/-- The lines pushed to `parts` by `createTooltipContent(stationData)`, where
`info` is `stationData.info`. -/
def tooltipParts (b : Builtins) (stationData : Station) (info : Info) : List String :=
  let parts : List String := []
  let parts := parts ++ ["<div class='tt-name'>" ++
    (if truthy info.nombre then toStr b info.nombre else "Estación") ++ "</div>"]
  let parts := if truthy stationData.t && notSentinel stationData.t then
    parts ++ ["<div class='tt-line'>🌡️ " ++ toStr b stationData.t ++ "°C</div>"] else parts
  let parts := if truthy stationData.h && notSentinel stationData.h then
    parts ++ ["<div class='tt-line'>💧 " ++ toStr b stationData.h ++ "%</div>"] else parts
  let parts := if defined stationData.wd && defined stationData.ws &&
      notSentinel stationData.wd && notSentinel stationData.ws then
    let wd := parseFloat b stationData.wd
    let ws := parseFloat b stationData.ws
    parts ++ ["<div class='tt-line'>💨 " ++ b.numToString ws ++ " m/s (" ++
      (cardinal wd).getD "undefined" ++ ")</div>"]
    else parts
  let parts := if truthy stationData.p && notSentinel stationData.p then
    parts ++ ["<div class='tt-line'>🌬️ " ++ toStr b stationData.p ++ " hPa</div>"] else parts
  parts

/-- `MapManager.createTooltipContent(stationData)`, where `info` is
`stationData.info`. -/
def createTooltipContent (b : Builtins) (stationData : Station) (info : Info) : String :=
  "<div class='station-tt'>" ++ String.join (tooltipParts b stationData info) ++ "</div>"

/-- The tone chosen by `createStationMarker(stationData)`. -/
def markerTone (stationData : Station) : String :=
  let hasTemp := truthy stationData.t && notSentinel stationData.t
  let hasHum := truthy stationData.h && notSentinel stationData.h
  let hasRain := defined stationData.p1h || defined stationData.oneH
  let tone := "var(--marker-blue, #4cb3ff)"
  if hasTemp && hasHum && hasRain then "var(--marker-full, #2bd4ff)"
  else if hasTemp || hasHum then "var(--marker-partial, #5a85ff)"
  else tone

/-- `MapManager.createStationMarker(stationData)`, where `info` is
`stationData.info` and `id` is the identity of the marker object created:
`ok none` is the `null` result, `error` the error thrown by `L.marker`. -/
def createStationMarker (b : Builtins) (r : Renderer) (id : Nat) (stationData : Station)
    (info : Info) : Except JSError (Option Marker) :=
  let lat := info.latitud
  let lng := info.longitud
  if !truthy lat || !truthy lng then .ok none
  else
    match r.markerError lat lng with
    | some e => .error (.thrown e)
    | none =>
      .ok (some { id := id, lat := lat, lng := lng, tone := markerTone stationData,
                  tooltip := createTooltipContent b stationData info })

/-! ## Heatmap dataset builder -/

/-- The body of the `forEach` callback of `generateHeatmapData(type)` applied to
one station, `data` being the points pushed so far. -/
def heatmapStep (b : Builtins) (type : String) (data : List HeatPoint)
    (station : Option Station) : List HeatPoint :=
  match station with
  | none => data
  | some station =>
    match station.info with
    | none => data
    | some info =>
      if !truthy info.latitud || !truthy info.longitud then data
      else
        let push (value : Option JSNum) : List HeatPoint :=
          match value with
          | none => data
          | some value =>
            if !isNaN value then
              data ++ [{ lat := parseFloat b info.latitud,
                         lng := parseFloat b info.longitud,
                         intensity := normalizeValue value type }]
            else data
        if type = "temperature" then
          push (if truthy station.t && notSentinel station.t then some (parseFloat b station.t)
                else none)
        else if type = "humidity" then
          push (if truthy station.h && notSentinel station.h then some (parseFloat b station.h)
                else none)
        else data

/-- `MapManager.generateHeatmapData(type)` on the value `stationsData` of
`this.stationsData`. -/
def generateHeatmapData (b : Builtins) (stationsData : StationsData) (type : String) :
    List HeatPoint :=
  match stationsData with
  | .object stations => stations.foldl (heatmapStep b type) []
  | _ => []

/-- `MapManager.getHeatmapGradient(type)`: the stops of the gradient. -/
def getHeatmapGradient (type : String) : List (ℚ × String) :=
  if type = "temperature" then
    [(0, "#0000ff"), (3 / 10, "#00ffff"), (1 / 2, "#00ff00"), (7 / 10, "#ffff00"),
     (9 / 10, "#ff8000"), (1, "#ff0000")]
  else if type = "humidity" then
    [(0, "#8B4513"), (1 / 5, "#DAA520"), (2 / 5, "#FFFF00"), (3 / 5, "#00FF00"),
     (4 / 5, "#0080FF"), (1, "#0000FF")]
  else []

/-! ## Overlay state machine -/

/-- `MapManager.clearHeatmap(updateStatus)`; `updateStatus` only selects
whether the status label is reset. -/
def clearHeatmap (s : MapManager) : MapManager :=
  let s := match s.heatmapLayer with
    | some h => { s with layers := removeLayer h.id s.layers, heatmapLayer := none }
    | none => s
  { s with currentHeatmapType := none }

/-- `MapManager.showHeatmap(type)`. An error thrown while the layer is built
and added is caught; `heatmapLayer` is assigned only when `addTo` returns. -/
def showHeatmap (b : Builtins) (r : Renderer) (type : String) (s : MapManager) : MapManager :=
  let s := { s with currentHeatmapType := some type }
  let s := clearHeatmap s
  let data := generateHeatmapData b s.stationsData type
  if data.length = 0 then s
  else if !r.heatLayerAvailable then s
  else
    let layer : HeatLayer := { id := s.nextId, data := data, gradient := getHeatmapGradient type }
    match r.heatLayer data with
    | .added =>
      { s with layers := addLayer (.heat layer) s.layers, heatmapLayer := some layer,
               nextId := s.nextId + 1 }
    | .throwsBefore => s
    | .throwsAfter => { s with layers := addLayer (.heat layer) s.layers, nextId := s.nextId + 1 }

/-- `MapManager.toggleStations()`. -/
def toggleStations (s : MapManager) : MapManager :=
  let s := { s with stationsVisible := !s.stationsVisible }
  if s.stationsVisible then
    { s with layers := s.markers.foldl (fun ls m => addLayer (.marker m) ls) s.layers }
  else
    { s with layers := s.markers.foldl (fun ls m => removeLayer m.id ls) s.layers }

/-- `MapManager.clearMarkers()`. -/
def clearMarkers (s : MapManager) : MapManager :=
  { s with layers := s.markers.foldl (fun ls m => removeLayer m.id ls) s.layers, markers := [] }

/-- The body of the `forEach` callback of `addStationsToMap` applied to one
station: the state afterwards, and the error thrown, if any. -/
def addStationStep (b : Builtins) (r : Renderer) (s : MapManager) (station : Option Station) :
    MapManager × Option JSError :=
  match station with
  | none => (s, none)
  | some station =>
    match station.info with
    | none => (s, none)
    | some info =>
      match createStationMarker b r s.nextId station info with
      | .error e => (s, some e)
      | .ok none => (s, none)
      | .ok (some marker) =>
        let s := { s with markers := s.markers ++ [marker], nextId := s.nextId + 1 }
        (if s.stationsVisible then { s with layers := addLayer (.marker marker) s.layers }
         else s, none)

/-- The `forEach` loop of `addStationsToMap` over the stations: it stops at the
first station whose callback throws. -/
def addStations (b : Builtins) (r : Renderer) : Dataset → MapManager → MapManager × Option JSError
  | [], s => (s, none)
  | station :: rest, s =>
    match addStationStep b r s station with
    | (s, some e) => (s, some e)
    | (s, none) => addStations b r rest s

/-- `MapManager.addStationsToMap()`: the state afterwards, and the error
thrown, if any. -/
def addStationsToMap (b : Builtins) (r : Renderer) (s : MapManager) :
    MapManager × Option JSError :=
  let s := clearMarkers s
  match s.stationsData with
  | .object stations => addStations b r stations s
  | _ => (s, none)

/-- Outcome of `await apiClient.getAllStationsData()`: the call throws, or it
gives a response with its `success` flag and its `data`. -/
inductive FetchResult where
  | throws (e : String)
  | response (success : Bool) (data : StationsData)

/-- The test `!this.currentHeatmapType`. -/
def noHeatmapType (s : MapManager) : Bool :=
  match s.currentHeatmapType with
  | none => true
  | some type => type == ""

/-- `MapManager.loadStationsData(silent)` with the outcome of the fetch: the
state afterwards, and the value the promise resolves with (`ok`) or the error it
rejects with (`error`). When not silent, the log of
`Object.keys(this.stationsData).length` throws for `undefined` or `null` data;
an error thrown while the markers are built is caught and thrown again. -/
def loadStationsData (b : Builtins) (r : Renderer) (silent : Bool) (fetch : FetchResult)
    (s : MapManager) : MapManager × Except JSError StationsData :=
  match fetch with
  | .throws e => (s, .error (.thrown e))
  | .response true data =>
    let s := { s with stationsData := data }
    if !silent && data = .nullish then (s, .error .typeError)
    else
      match addStationsToMap b r s with
      | (s, some e) => (s, .error e)
      | (s, none) =>
        let s := if noHeatmapType s then showHeatmap b r "temperature" s else s
        (s, .ok s.stationsData)
  | .response false _ => (s, .ok s.stationsData)

/-- `MapManager.refreshData()`. -/
def refreshData (b : Builtins) (r : Renderer) (fetch : FetchResult) (s : MapManager) :
    MapManager × Except JSError StationsData :=
  loadStationsData b r false fetch s

/-- A call of one of the operations that change the state, with the outcome of
the fetch for those that fetch. -/
inductive Op where
  | showHeatmap (type : String)
  | clearHeatmap
  | toggleStations
  | refreshData (fetch : FetchResult)
  | loadStationsData (silent : Bool) (fetch : FetchResult)

/-- The state after one call. -/
def step (b : Builtins) (r : Renderer) (s : MapManager) : Op → MapManager
  | .showHeatmap type => showHeatmap b r type s
  | .clearHeatmap => clearHeatmap s
  | .toggleStations => toggleStations s
  | .refreshData fetch => (refreshData b r fetch s).1
  | .loadStationsData silent fetch => (loadStationsData b r silent fetch s).1

/-- The state after a sequence of calls. -/
def run (b : Builtins) (r : Renderer) (s : MapManager) (ops : List Op) : MapManager :=
  ops.foldl (step b r) s

/-! ## Definitions used to state the properties -/

/-- The 16 compass labels. -/
def compassLabels : List String :=
  ["N", "NNE", "NE", "ENE", "E", "ESE", "SE", "SSE", "S", "SSW", "SW", "WSW", "W", "WNW",
   "NW", "NNW"]

/-- A field is available in the sense of the data model (`'-999'` or `undefined`
means "not available"): it is neither `undefined` nor the sentinel. -/
def available (v : JSVal) : Bool := defined v && notSentinel v

/-- The tier of a station when "present" is read as "not `undefined`": Full
when temperature and humidity are available and a precipitation field is
present, otherwise Partial when temperature or humidity is available, otherwise
Minimal. -/
def statedTier (st : Station) : MarkerTier :=
  if available st.t && available st.h && (defined st.p1h || defined st.oneH) then .Full
  else if available st.t || available st.h then .Partial
  else .Minimal

/-- The name line of a tooltip. -/
def nameLine (b : Builtins) (info : Info) : String :=
  "<div class='tt-name'>" ++ (if truthy info.nombre then toStr b info.nombre else "Estación") ++
    "</div>"

/-- The temperature line of a tooltip. -/
def temperatureLine (b : Builtins) (st : Station) : String :=
  "<div class='tt-line'>🌡️ " ++ toStr b st.t ++ "°C</div>"

/-- The humidity line of a tooltip. -/
def humidityLine (b : Builtins) (st : Station) : String :=
  "<div class='tt-line'>💧 " ++ toStr b st.h ++ "%</div>"

/-- The wind line of a tooltip, embedding the text `label`. -/
def windLine (b : Builtins) (st : Station) (label : String) : String :=
  "<div class='tt-line'>💨 " ++ b.numToString (parseFloat b st.ws) ++ " m/s (" ++ label ++
    ")</div>"

/-- The pressure line of a tooltip. -/
def pressureLine (b : Builtins) (st : Station) : String :=
  "<div class='tt-line'>🌬️ " ++ toStr b st.p ++ " hPa</div>"

/-- The lines selected from a list of lines, each with its condition, in the
order of the list. -/
def selectLines (ls : List (Bool × String)) : List String :=
  (ls.filter Prod.fst).map Prod.snd

/-- The field of a station read for a heatmap type. -/
def metricField (type : String) (st : Station) : JSVal :=
  if type = "temperature" then st.t else st.h

/-- The location test of `generateHeatmapData`: the record, its `info`, its
latitude and its longitude are truthy. -/
def location (station : Option Station) : Option (Station × Info) :=
  match station with
  | none => none
  | some st =>
    match st.info with
    | none => none
    | some info => if truthy info.latitud && truthy info.longitud then some (st, info) else none

/-- The point of a station for a heatmap type. -/
def heatPoint (b : Builtins) (type : String) (st : Station) (info : Info) : HeatPoint :=
  { lat := parseFloat b info.latitud, lng := parseFloat b info.longitud,
    intensity := normalizeValue (parseFloat b (metricField type st)) type }

/-- The point of a station when "present" is read as "not `undefined`": a point
for a station with a location and an available value. -/
def statedPoint (b : Builtins) (type : String) (station : Option Station) : Option HeatPoint :=
  match location station with
  | none => none
  | some (st, info) =>
    if available (metricField type st) then some (heatPoint b type st info) else none

/-- The point of a station with a location whose value is truthy, is not the
sentinel and parses to a number. -/
def eligiblePoint (b : Builtins) (type : String) (station : Option Station) : Option HeatPoint :=
  match location station with
  | none => none
  | some (st, info) =>
    if truthy (metricField type st) && notSentinel (metricField type st) &&
        !isNaN (parseFloat b (metricField type st)) then
      some (heatPoint b type st info)
    else none

/-! ## Concrete inputs -/

/-- Value of a list of decimal digits. -/
def digitsValue (cs : List Char) : Nat :=
  cs.foldl (fun n c => 10 * n + (c.toNat - 48)) 0

/-- The exponent part of a decimal numeral read from `cs`: 0 when there is none. -/
def exponentValue (cs : List Char) : Int :=
  match cs with
  | c :: r =>
    if c = 'e' ∨ c = 'E' then
      match r with
      | '-' :: d => if (d.takeWhile Char.isDigit).isEmpty then 0
                    else -(digitsValue (d.takeWhile Char.isDigit) : Int)
      | '+' :: d => digitsValue (d.takeWhile Char.isDigit)
      | d => digitsValue (d.takeWhile Char.isDigit)
    else 0
  | [] => 0

/-- A model of `parseFloat` on strings, used to evaluate examples: after leading
blanks it reads the longest prefix that is an optional sign followed by
`Infinity` or by a decimal numeral with optional fraction and exponent, and
gives `NaN` when there is none. -/
def parseDecimal (s : String) : JSNum :=
  let cs := s.toList.dropWhile (fun c => c = ' ' ∨ c = '\t' ∨ c = '\n' ∨ c = '\r')
  let neg := cs.head? = some '-'
  let cs := match cs with
    | '-' :: r => r
    | '+' :: r => r
    | r => r
  if "Infinity".toList.isPrefixOf cs then (if neg then .negInf else .posInf)
  else
    let ip := cs.takeWhile Char.isDigit
    let rest := cs.dropWhile Char.isDigit
    let fp := match rest with
      | '.' :: r => r.takeWhile Char.isDigit
      | _ => []
    let rest := match rest with
      | '.' :: r => r.dropWhile Char.isDigit
      | r => r
    if ip.isEmpty ∧ fp.isEmpty then .nan
    else
      let v : ℚ := (digitsValue ip + (digitsValue fp : ℚ) / 10 ^ fp.length) *
        10 ^ exponentValue rest
      .fin (if neg then -v else v)

/-- The first `fuel` digits of the decimal expansion of `r / d`, for `r < d`,
stopping when the expansion ends. -/
def fractionDigits (d : Nat) : Nat → Nat → List Char
  | 0, _ => []
  | fuel + 1, r =>
    if r = 0 then [] else Nat.digitChar (10 * r / d) :: fractionDigits d fuel (10 * r % d)

/-- A model of the conversion of a number to a string, used to evaluate
examples: integers in decimal, other finite values with at most 17 digits after
the point. -/
def showNumber : JSNum → String
  | .nan => "NaN"
  | .negInf => "-Infinity"
  | .posInf => "Infinity"
  | .fin q =>
    if q.den = 1 then toString q.num
    else
      (if q < 0 then "-" else "") ++ toString (q.num.natAbs / q.den) ++ "." ++
        String.mk (fractionDigits q.den 17 (q.num.natAbs % q.den))

/-- The built-ins used to evaluate examples. -/
def decimalBuiltins : Builtins :=
  { parseString := parseDecimal, numToString := showNumber }

/-- Blank characters skipped around a numeral. -/
def isBlank (c : Char) : Bool := c = ' ' || c = '\t' || c = '\n' || c = '\r'

/-- The characters after the exponent part at the head of `cs` (`cs` itself
when there is none). -/
def dropExponent (cs : List Char) : List Char :=
  match cs with
  | c :: r =>
    if c = 'e' ∨ c = 'E' then
      let d := match r with
        | '-' :: d => d
        | '+' :: d => d
        | d => d
      if (d.takeWhile Char.isDigit).isEmpty then cs else d.dropWhile Char.isDigit
    else cs
  | [] => []

/-- The characters after the decimal numeral at the head of `cs`; `none` when
there is no numeral. -/
def afterNumeral (cs : List Char) : Option (List Char) :=
  let body := match cs with
    | '-' :: r => r
    | '+' :: r => r
    | r => r
  if "Infinity".toList.isPrefixOf body then some (body.drop 8)
  else
    let ip := body.takeWhile Char.isDigit
    let rest := body.dropWhile Char.isDigit
    let fp := match rest with
      | '.' :: r => r.takeWhile Char.isDigit
      | _ => []
    let rest := match rest with
      | '.' :: r => r.dropWhile Char.isDigit
      | r => r
    if ip.isEmpty ∧ fp.isEmpty then none else some (dropExponent rest)

/-- A model of the conversion of a value to a number (`Number(v)`), used to
evaluate examples: a string must be a decimal numeral between blanks, the empty
string gives 0. -/
def toNumber : JSVal → JSNum
  | .undefined => .nan
  | .null => .fin 0
  | .num x => x
  | .str s =>
    let cs := s.toList.dropWhile isBlank
    if cs.isEmpty then .fin 0
    else
      match afterNumeral cs with
      | some rest => if rest.all isBlank then parseDecimal s else .nan
      | none => .nan

/-- A model of the check of Leaflet's `LatLng` constructor, which `L.marker`
runs on its coordinates: it throws when `isNaN(lat) || isNaN(lng)`. -/
def leafletMarkerError (lat lng : JSVal) : Option String :=
  if isNaN (toNumber lat) || isNaN (toNumber lng) then
    some ("Invalid LatLng object: (" ++ toStr decimalBuiltins lat ++ ", " ++
      toStr decimalBuiltins lng ++ ")")
  else none

/-- An `info` object at latitude 6.2 and longitude -75.5. -/
def infoA : Info :=
  { latitud := .num (.fin (31 / 5)), longitud := .num (.fin (-151 / 2)), nombre := .str "A" }

/-- An `info` object at latitude 6.3 and longitude -75.6. -/
def infoB : Info :=
  { latitud := .num (.fin (63 / 10)), longitud := .num (.fin (-378 / 5)), nombre := .str "B" }

/-- Station A: temperature 28, humidity 60, precipitation field present. -/
def stationA : Station :=
  { info := some infoA, t := .num (.fin 28), h := .num (.fin 60), wd := .undefined,
    ws := .undefined, p := .undefined, p1h := .str "0.0", oneH := .undefined }

/-- Station B: sentinel temperature, humidity 40, no precipitation field. -/
def stationB : Station :=
  { info := some infoB, t := .str "-999", h := .num (.fin 40), wd := .undefined,
    ws := .undefined, p := .undefined, p1h := .undefined, oneH := .undefined }

/-- Station A with only its temperature. -/
def stationOnlyTemp : Station :=
  { stationA with h := .undefined, p1h := .undefined }

/-- Station A without any reading. -/
def stationNothing : Station :=
  { stationA with t := .undefined, h := .undefined, p1h := .undefined }

/-- Station A with the number 0 as temperature. -/
def stationZeroTemp : Station :=
  { stationA with t := .num (.fin 0) }

/-- Station A with wind direction -45 and wind speed 3 as only readings. -/
def stationNegativeWind : Station :=
  { stationNothing with wd := .num (.fin (-45)), ws := .num (.fin 3) }

/-- Station A with wind direction 45 and wind speed 3 as only readings. -/
def stationWind : Station :=
  { stationNothing with wd := .num (.fin 45), ws := .num (.fin 3) }

/-- The dataset of stations A and B. -/
def datasetAB : Dataset := [some stationA, some stationB]

/-- Station A with the string `'abc'` as latitude. -/
def stationBadLatitude : Station :=
  { stationA with info := some { infoA with latitud := .str "abc" } }

/-- A renderer whose heatmap plugin is available and does not throw. -/
def workingRenderer : Renderer :=
  { heatLayerAvailable := true, heatLayer := fun _ => .added, markerError := leafletMarkerError }

/-- A renderer whose heat layers throw in `onAdd`, after the map has registered
them. -/
def orphaningRenderer : Renderer :=
  { heatLayerAvailable := true, heatLayer := fun _ => .throwsAfter,
    markerError := leafletMarkerError }

/-- The markers of a dataset: one per station with a location, in dataset
order, with consecutive identities from `id`. -/
def stationMarkers (b : Builtins) (id : Nat) : Dataset → List Marker
  | [] => []
  | station :: rest =>
    match location station with
    | none => stationMarkers b id rest
    | some (st, info) =>
      { id := id, lat := info.latitud, lng := info.longitud, tone := markerTone st,
        tooltip := createTooltipContent b st info } :: stationMarkers b (id + 1) rest

/-- The invariant of the overlay: the heat layers held by the map are exactly
the layer referenced by `heatmapLayer` (none when it is `null`), the identities
of the layers and markers in use are below `nextId`, and no marker has the
identity of the heat layer. -/
def OverlayInv (s : MapManager) : Prop :=
  heatLayers s.layers = s.heatmapLayer.toList ∧
  (∀ l ∈ s.layers, l.id < s.nextId) ∧
  (∀ m ∈ s.markers, m.id < s.nextId) ∧
  (∀ h, s.heatmapLayer = some h → h.id < s.nextId) ∧
  (∀ m ∈ s.markers, ∀ h, s.heatmapLayer = some h → m.id ≠ h.id)

/-! ## Theorems: unit normalizer -/

theorem normalizeValue_temperature_fin (v : ℚ) :
    normalizeValue (.fin v) "temperature" = .fin (max 0 (min 1 ((v - 15) / 20))) := by
  simp [normalizeValue, JSNum.subFin, JSNum.divPos, mathMin, mathMax]

theorem normalizeValue_humidity_fin (v : ℚ) :
    normalizeValue (.fin v) "humidity" = .fin (max 0 (min 1 (v / 100))) := by
  simp [normalizeValue, JSNum.divPos, mathMin, mathMax]

/-- C5: for every finite value `v`, `normalizeValue(v, metric)` is
`(v - min) / (max - min)` clamped to `[0, 1]`, for the domains 15..35 of
temperature and 0..100 of humidity: it lies in `[0, 1]`, it is 0 for `v <= min`
and 1 for `v >= max` (also at `-Infinity` and `Infinity`), and
`normalize(15, temperature) = 0`, `normalize(35, temperature) = 1`,
`normalize(5, temperature) = 0`, `normalize(50, humidity) = 0.5`. -/
theorem normalizeValue_clamped (v : ℚ) :
    normalizeValue (.fin v) "temperature" = .fin (max 0 (min 1 ((v - 15) / (35 - 15)))) ∧
    normalizeValue (.fin v) "humidity" = .fin (max 0 (min 1 ((v - 0) / (100 - 0)))) ∧
    (∀ type, type = "temperature" ∨ type = "humidity" →
      ∃ x, normalizeValue (.fin v) type = .fin x ∧ 0 ≤ x ∧ x ≤ 1) ∧
    (v ≤ 15 → normalizeValue (.fin v) "temperature" = .fin 0) ∧
    (35 ≤ v → normalizeValue (.fin v) "temperature" = .fin 1) ∧
    (v ≤ 0 → normalizeValue (.fin v) "humidity" = .fin 0) ∧
    (100 ≤ v → normalizeValue (.fin v) "humidity" = .fin 1) ∧
    (∀ type, type = "temperature" ∨ type = "humidity" →
      normalizeValue .negInf type = .fin 0 ∧ normalizeValue .posInf type = .fin 1) ∧
    normalizeValue (.fin 15) "temperature" = .fin 0 ∧
    normalizeValue (.fin 35) "temperature" = .fin 1 ∧
    normalizeValue (.fin 5) "temperature" = .fin 0 ∧
    normalizeValue (.fin 50) "humidity" = .fin (1 / 2) := by
  refine ⟨?_, ?_, ?_, ?_, ?_, ?_, ?_, ?_, ?_, ?_, ?_, ?_⟩
  · rw [normalizeValue_temperature_fin]; norm_num
  · rw [normalizeValue_humidity_fin]; norm_num
  · rintro type (rfl | rfl)
    · exact ⟨_, normalizeValue_temperature_fin v, le_max_left _ _,
        max_le (by norm_num) (min_le_left _ _)⟩
    · exact ⟨_, normalizeValue_humidity_fin v, le_max_left _ _,
        max_le (by norm_num) (min_le_left _ _)⟩
  · intro h
    rw [normalizeValue_temperature_fin]
    have h1 : (v - 15) / 20 ≤ 0 := div_nonpos_of_nonpos_of_nonneg (by linarith) (by norm_num)
    rw [max_eq_left (le_trans (min_le_right _ _) h1)]
  · intro h
    rw [normalizeValue_temperature_fin]
    have h1 : 1 ≤ (v - 15) / 20 := by rw [le_div_iff₀ (by norm_num)]; linarith
    rw [min_eq_left h1, max_eq_right (by norm_num)]
  · intro h
    rw [normalizeValue_humidity_fin]
    have h1 : v / 100 ≤ 0 := div_nonpos_of_nonpos_of_nonneg h (by norm_num)
    rw [max_eq_left (le_trans (min_le_right _ _) h1)]
  · intro h
    rw [normalizeValue_humidity_fin]
    have h1 : 1 ≤ v / 100 := by rw [le_div_iff₀ (by norm_num)]; linarith
    rw [min_eq_left h1, max_eq_right (by norm_num)]
  · rintro type (rfl | rfl) <;>
      simp [normalizeValue, JSNum.subFin, JSNum.divPos, mathMin, mathMax]
  · rw [normalizeValue_temperature_fin]; norm_num
  · rw [normalizeValue_temperature_fin]; norm_num
  · rw [normalizeValue_temperature_fin]; norm_num
  · rw [normalizeValue_humidity_fin]; norm_num

/-- Witness of C5 at `v = 5`: below the temperature domain the result is 0,
inside the humidity domain it lies in `[0, 1]`. -/
theorem normalizeValue_clamped_witness :
    ((5 : ℚ) ≤ 15 ∧ normalizeValue (.fin 5) "temperature" = .fin 0) ∧
    ∃ x, normalizeValue (.fin 5) "humidity" = .fin x ∧ 0 ≤ x ∧ x ≤ 1 :=
  ⟨⟨by norm_num, (normalizeValue_clamped 5).2.2.2.1 (by norm_num)⟩,
   (normalizeValue_clamped 5).2.2.1 "humidity" (Or.inr rfl)⟩

/-! ## Theorems: cardinal resolver -/

theorem cardinalIndex_of_nonneg (q : ℚ) (h : 0 ≤ q) :
    cardinalIndex (.fin q) = .fin ((⌊(q - 360 * ⌊q / 360⌋) / (45 / 2) + 1 / 2⌋ : ℤ) : ℚ) := by
  simp [cardinalIndex, JSNum.rem, JSNum.divPos, mathRound, h]

theorem cardinalIndex_of_neg (q : ℚ) (h : q < 0) :
    cardinalIndex (.fin q) = .fin ((⌊(q - 360 * ⌈q / 360⌉) / (45 / 2) + 1 / 2⌋ : ℤ) : ℚ) := by
  simp [cardinalIndex, JSNum.rem, JSNum.divPos, mathRound, not_le.mpr h]

theorem cardinalIndex_eq_of_nonneg {q : ℚ} {k i : ℤ} (h0 : 0 ≤ q)
    (hk1 : (k : ℚ) ≤ q / 360) (hk2 : q / 360 < k + 1)
    (hi1 : (i : ℚ) ≤ (q - 360 * k) / (45 / 2) + 1 / 2)
    (hi2 : (q - 360 * k) / (45 / 2) + 1 / 2 < i + 1) :
    cardinalIndex (.fin q) = .fin i := by
  rw [cardinalIndex_of_nonneg q h0]
  have hk : ⌊q / 360⌋ = k := Int.floor_eq_iff.mpr ⟨hk1, hk2⟩
  rw [hk]
  have hi : ⌊(q - 360 * k) / (45 / 2) + 1 / 2⌋ = i := Int.floor_eq_iff.mpr ⟨hi1, hi2⟩
  rw [hi]

theorem cardinalIndex_eq_of_neg {q : ℚ} {k i : ℤ} (h0 : q < 0)
    (hk1 : (k : ℚ) - 1 < q / 360) (hk2 : q / 360 ≤ k)
    (hi1 : (i : ℚ) ≤ (q - 360 * k) / (45 / 2) + 1 / 2)
    (hi2 : (q - 360 * k) / (45 / 2) + 1 / 2 < i + 1) :
    cardinalIndex (.fin q) = .fin i := by
  rw [cardinalIndex_of_neg q h0]
  have hk : ⌈q / 360⌉ = k := Int.ceil_eq_iff.mpr ⟨hk1, hk2⟩
  rw [hk]
  have hi : ⌊(q - 360 * k) / (45 / 2) + 1 / 2⌋ = i := Int.floor_eq_iff.mpr ⟨hi1, hi2⟩
  rw [hi]

theorem arrayGet_int (xs : List String) (n : ℤ) :
    arrayGet xs (.fin n) = if 0 ≤ n then xs.get? n.toNat else none := by
  simp [arrayGet]

theorem cardinal_zero : cardinal (.fin 0) = some "N" := by
  have h := @cardinalIndex_eq_of_nonneg 0 0 0 (by norm_num) (by norm_num) (by norm_num)
    (by norm_num) (by norm_num)
  rw [cardinal, h, arrayGet_int]; simp [directions]

theorem cardinal_45 : cardinal (.fin 45) = some "NE" := by
  have h := @cardinalIndex_eq_of_nonneg 45 0 2 (by norm_num) (by norm_num) (by norm_num)
    (by norm_num) (by norm_num)
  rw [cardinal, h, arrayGet_int]; simp [directions]

theorem cardinal_180 : cardinal (.fin 180) = some "S" := by
  have h := @cardinalIndex_eq_of_nonneg 180 0 8 (by norm_num) (by norm_num) (by norm_num)
    (by norm_num) (by norm_num)
  rw [cardinal, h, arrayGet_int]; simp [directions]

theorem cardinal_315 : cardinal (.fin 315) = some "NW" := by
  have h := @cardinalIndex_eq_of_nonneg 315 0 14 (by norm_num) (by norm_num) (by norm_num)
    (by norm_num) (by norm_num)
  rw [cardinal, h, arrayGet_int]; simp [directions]

theorem cardinal_359 : cardinal (.fin 359) = some "N" := by
  have h := @cardinalIndex_eq_of_nonneg 359 0 16 (by norm_num) (by norm_num) (by norm_num)
    (by norm_num) (by norm_num)
  rw [cardinal, h, arrayGet_int]; simp [directions]

theorem cardinal_neg45 : cardinal (.fin (-45)) = none := by
  have h := @cardinalIndex_eq_of_neg (-45) 0 (-2) (by norm_num) (by norm_num) (by norm_num)
    (by norm_num) (by norm_num)
  rw [cardinal, h, arrayGet_int]; simp

/-- For a finite angle that is not negative the cardinal computation returns
one of the 16 compass labels. -/
theorem cardinal_of_nonneg (q : ℚ) (h : 0 ≤ q) :
    ∃ l, l ∈ compassLabels ∧ cardinal (.fin q) = some l := by
  rw [cardinal, cardinalIndex_of_nonneg q h, arrayGet_int]
  set r : ℚ := q - 360 * ⌊q / 360⌋ with hr
  have hfl : (⌊q / 360⌋ : ℚ) ≤ q / 360 := Int.floor_le _
  have hfu : q / 360 < ⌊q / 360⌋ + 1 := Int.lt_floor_add_one _
  have hr0 : 0 ≤ r := by rw [hr]; linarith
  have hr1 : r < 360 := by rw [hr]; linarith
  have hn0 : 0 ≤ ⌊r / (45 / 2) + 1 / 2⌋ := by
    apply Int.floor_nonneg.mpr
    have : 0 ≤ r / (45 / 2) := div_nonneg hr0 (by norm_num)
    linarith
  have hn1 : ⌊r / (45 / 2) + 1 / 2⌋ < 17 := by
    apply Int.floor_lt.mpr
    have : r / (45 / 2) < 16 := by rw [div_lt_iff₀ (by norm_num)]; linarith
    push_cast; linarith
  rw [if_pos hn0]
  obtain ⟨n, hn⟩ : ∃ n : ℕ, ⌊r / (45 / 2) + 1 / 2⌋ = n := ⟨_, (Int.toNat_of_nonneg hn0).symm⟩
  rw [hn] at hn1 ⊢
  have hn2 : n < 17 := by exact_mod_cast hn1
  simp only [Int.toNat_ofNat]
  interval_cases n <;> simp [directions, compassLabels]

/-- Among finite angles that are not negative the cardinal computation has
period 360. -/
theorem cardinal_periodic_of_nonneg (q : ℚ) (k : ℤ) (h : 0 ≤ q) (hk : 0 ≤ q + 360 * k) :
    cardinal (.fin (q + 360 * k)) = cardinal (.fin q) := by
  rw [cardinal, cardinal, cardinalIndex_of_nonneg q h, cardinalIndex_of_nonneg _ hk]
  have h1 : (q + 360 * k) / 360 = q / 360 + k := by ring
  rw [h1, Int.floor_add_int]
  push_cast
  have h2 : q + 360 * (k : ℚ) - 360 * ((⌊q / 360⌋ : ℚ) + k) = q - 360 * ⌊q / 360⌋ := by ring
  rw [h2]

/-- C7 (evaluation at the failing input): `cardinal(0) = 'N'`,
`cardinal(180) = 'S'`, `cardinal(45) = 'NE'` and `cardinal(359) = 'N'`, but for
the negative angle -45 the remainder `-45 % 360` is -45, the index is -2 and the
lookup in `directions` is `undefined`. -/
theorem cardinal_negative_angle_undefined :
    cardinal (.fin 0) = some "N" ∧ cardinal (.fin 180) = some "S" ∧
    cardinal (.fin 45) = some "NE" ∧ cardinal (.fin 359) = some "N" ∧
    cardinalIndex (.fin (-45)) = .fin (-2) ∧ cardinal (.fin (-45)) = none :=
  ⟨cardinal_zero, cardinal_180, cardinal_45, cardinal_359,
   by
    have h := @cardinalIndex_eq_of_neg (-45) 0 (-2) (by norm_num) (by norm_num) (by norm_num)
      (by norm_num) (by norm_num)
    simpa using h,
   cardinal_neg45⟩

/-- C6 (evaluation at the failing input): for the angle -45 and `k = 1` the
labels differ: the computation gives `undefined` at -45 and `'NW'` at
-45 + 360 * 1 = 315. -/
theorem cardinal_not_periodic_at_negative :
    cardinal (.fin (-45)) = none ∧ cardinal (.fin (-45 + 360 * 1)) = some "NW" ∧
    cardinal (.fin (-45)) ≠ cardinal (.fin (-45 + 360 * 1)) := by
  have h : ((-45 : ℚ) + 360 * 1) = 315 := by norm_num
  rw [h, cardinal_neg45, cardinal_315]
  simp

/-! ## Theorems: station classifier -/

theorem markerTone_eq (st : Station) :
    markerTone st =
      if truthy st.t && notSentinel st.t && (truthy st.h && notSentinel st.h) &&
          (defined st.p1h || defined st.oneH) then MarkerTier.Full.tone
      else if truthy st.t && notSentinel st.t || truthy st.h && notSentinel st.h then
        MarkerTier.Partial.tone
      else MarkerTier.Minimal.tone := rfl

theorem createStationMarker_ok (b : Builtins) (r : Renderer) (id : Nat) (st : Station)
    (info : Info) (hlat : truthy info.latitud = true) (hlng : truthy info.longitud = true)
    (hm : r.markerError info.latitud info.longitud = none) :
    createStationMarker b r id st info =
      .ok (some { id := id, lat := info.latitud, lng := info.longitud, tone := markerTone st,
                  tooltip := createTooltipContent b st info }) := by
  simp [createStationMarker, hlat, hlng, hm]

theorem truthy_infoA : truthy infoA.latitud = true ∧ truthy infoA.longitud = true := by
  simp [truthy, infoA]

theorem truthy_infoB : truthy infoB.latitud = true ∧ truthy infoB.longitud = true := by
  simp [truthy, infoB]

theorem markerError_infoA : leafletMarkerError infoA.latitud infoA.longitud = none := by
  simp [leafletMarkerError, toNumber, isNaN, infoA]

theorem markerError_infoB : leafletMarkerError infoB.latitud infoB.longitud = none := by
  simp [leafletMarkerError, toNumber, isNaN, infoB]

theorem createStationMarker_infoA (id : Nat) (st : Station) :
    createStationMarker decimalBuiltins workingRenderer id st infoA =
      .ok (some { id := id, lat := infoA.latitud, lng := infoA.longitud, tone := markerTone st,
                  tooltip := createTooltipContent decimalBuiltins st infoA }) :=
  createStationMarker_ok _ _ _ _ _ truthy_infoA.1 truthy_infoA.2 markerError_infoA

theorem createStationMarker_infoB (id : Nat) (st : Station) :
    createStationMarker decimalBuiltins workingRenderer id st infoB =
      .ok (some { id := id, lat := infoB.latitud, lng := infoB.longitud, tone := markerTone st,
                  tooltip := createTooltipContent decimalBuiltins st infoB }) :=
  createStationMarker_ok _ _ _ _ _ truthy_infoB.1 truthy_infoB.2 markerError_infoB

/-- C8 (evaluation at the failing input): temperature, humidity and rain gives
the Full tone; only temperature gives Partial; nothing gives Minimal; a
sentinel temperature with valid humidity gives Partial; but station A with the
number 0 as temperature, whose temperature and humidity are neither `undefined`
nor `'-999'` and which has a precipitation field, so that the tier of the claim
is Full, gets the Partial tone: `stationData.t && ...` is falsy for 0. -/
theorem createStationMarker_zero_temperature_partial :
    markerTone stationA = MarkerTier.Full.tone ∧
    markerTone stationOnlyTemp = MarkerTier.Partial.tone ∧
    markerTone stationNothing = MarkerTier.Minimal.tone ∧
    markerTone stationB = MarkerTier.Partial.tone ∧
    (available stationZeroTemp.t = true ∧ available stationZeroTemp.h = true ∧
      defined stationZeroTemp.p1h = true ∧ statedTier stationZeroTemp = MarkerTier.Full) ∧
    createStationMarker decimalBuiltins workingRenderer 0 stationZeroTemp infoA =
      .ok (some { id := 0, lat := .num (.fin (31 / 5)), lng := .num (.fin (-151 / 2)),
                  tone := MarkerTier.Partial.tone,
                  tooltip := createTooltipContent decimalBuiltins stationZeroTemp infoA }) := by
  refine ⟨?_, ?_, ?_, ?_, ⟨?_, ?_, ?_, ?_⟩, ?_⟩
  · simp [markerTone_eq, stationA, truthy, notSentinel, defined]
  · simp [markerTone_eq, stationOnlyTemp, stationA, truthy, notSentinel, defined]
  · simp [markerTone_eq, stationNothing, stationA, truthy, notSentinel, defined]
  · simp [markerTone_eq, stationB, truthy, notSentinel, defined]
  · simp [available, defined, notSentinel, stationZeroTemp, stationA]
  · simp [available, defined, notSentinel, stationZeroTemp, stationA]
  · simp [defined, stationZeroTemp, stationA]
  · simp [statedTier, available, defined, notSentinel, stationZeroTemp, stationA]
  · rw [createStationMarker_infoA]
    have ht : markerTone stationZeroTemp = MarkerTier.Partial.tone := by
      simp [markerTone_eq, stationZeroTemp, stationA, truthy, notSentinel, defined]
    rw [ht]; rfl

/-! ## Theorems: tooltip composer -/

theorem tooltipParts_eq (b : Builtins) (st : Station) (info : Info) :
    tooltipParts b st info =
      nameLine b info :: selectLines
        [(truthy st.t && notSentinel st.t, temperatureLine b st),
         (truthy st.h && notSentinel st.h, humidityLine b st),
         (defined st.wd && defined st.ws && notSentinel st.wd && notSentinel st.ws,
          windLine b st ((cardinal (parseFloat b st.wd)).getD "undefined")),
         (truthy st.p && notSentinel st.p, pressureLine b st)] := by
  simp only [tooltipParts, selectLines, nameLine, temperatureLine, humidityLine, windLine,
    pressureLine]
  cases truthy st.t && notSentinel st.t <;>
  cases truthy st.h && notSentinel st.h <;>
  cases defined st.wd && defined st.ws && notSentinel st.wd && notSentinel st.ws <;>
  cases truthy st.p && notSentinel st.p <;>
  simp

theorem showNumber_int (n : ℤ) : showNumber (.fin n) = toString n := by
  simp [showNumber]

/-- C9 (evaluation at the failing inputs): the tooltip of station A has the
name line followed by the temperature and humidity lines, and a wind direction
of 45 gives a wind line embedding `NE`; but with the number 0 as temperature,
which is neither `undefined` nor `'-999'`, the tooltip has no temperature line,
and with wind direction -45 and wind speed 3, both neither `undefined` nor
`'-999'`, the wind line embeds `undefined`, which is not a compass label. -/
theorem tooltip_zero_temperature_negative_wind :
    tooltipParts decimalBuiltins stationA infoA =
      ["<div class='tt-name'>A</div>", "<div class='tt-line'>🌡️ 28°C</div>",
       "<div class='tt-line'>💧 60%</div>"] ∧
    tooltipParts decimalBuiltins stationWind infoA =
      ["<div class='tt-name'>A</div>", "<div class='tt-line'>💨 3 m/s (NE)</div>"] ∧
    available stationZeroTemp.t = true ∧
    tooltipParts decimalBuiltins stationZeroTemp infoA =
      ["<div class='tt-name'>A</div>", "<div class='tt-line'>💧 60%</div>"] ∧
    (available stationNegativeWind.wd = true ∧ available stationNegativeWind.ws = true) ∧
    tooltipParts decimalBuiltins stationNegativeWind infoA =
      ["<div class='tt-name'>A</div>", "<div class='tt-line'>💨 3 m/s (undefined)</div>"] ∧
    "undefined" ∉ compassLabels := by
  have h28 : showNumber (.fin 28) = "28" := showNumber_int 28
  have h60 : showNumber (.fin 60) = "60" := showNumber_int 60
  have h3 : showNumber (.fin 3) = "3" := showNumber_int 3
  refine ⟨?_, ?_, by simp [available, defined, notSentinel, stationZeroTemp, stationA], ?_,
    by simp [available, defined, notSentinel, stationNegativeWind], ?_, by decide⟩
  · rw [tooltipParts_eq]
    simp [selectLines, nameLine, temperatureLine, humidityLine, stationA, infoA, truthy,
      notSentinel, defined, toStr, decimalBuiltins, h28, h60]
  · rw [tooltipParts_eq]
    simp [selectLines, nameLine, windLine, stationWind, stationNothing, stationA, infoA,
      truthy, notSentinel, defined, toStr, decimalBuiltins, parseFloat, h3, cardinal_45]
  · rw [tooltipParts_eq]
    simp [selectLines, nameLine, humidityLine, stationZeroTemp, stationA, infoA, truthy,
      notSentinel, defined, toStr, decimalBuiltins, h60]
  · rw [tooltipParts_eq]
    simp [selectLines, nameLine, windLine, stationNegativeWind, stationNothing, stationA, infoA,
      truthy, notSentinel, defined, toStr, decimalBuiltins, parseFloat, h3, cardinal_neg45]

/-! ## Theorems: heatmap dataset builder -/

theorem heatmapStep_eq (b : Builtins) (type : String)
    (hty : type = "temperature" ∨ type = "humidity") (data : List HeatPoint)
    (station : Option Station) :
    heatmapStep b type data station = data ++ (eligiblePoint b type station).toList := by
  cases station with
  | none => simp [heatmapStep, eligiblePoint, location]
  | some st =>
    cases hinfo : st.info with
    | none => simp [heatmapStep, eligiblePoint, location, hinfo]
    | some info =>
      rcases hty with rfl | rfl
      · cases h1 : truthy info.latitud <;> cases h2 : truthy info.longitud <;>
        cases h3 : truthy st.t <;> cases h4 : notSentinel st.t <;>
        cases h5 : isNaN (parseFloat b st.t) <;>
        simp [heatmapStep, eligiblePoint, location, metricField, heatPoint, hinfo, h1, h2, h3,
          h4, h5]
      · cases h1 : truthy info.latitud <;> cases h2 : truthy info.longitud <;>
        cases h3 : truthy st.h <;> cases h4 : notSentinel st.h <;>
        cases h5 : isNaN (parseFloat b st.h) <;>
        simp [heatmapStep, eligiblePoint, location, metricField, heatPoint, hinfo, h1, h2, h3,
          h4, h5]

theorem foldl_heatmapStep (b : Builtins) (type : String)
    (hty : type = "temperature" ∨ type = "humidity") (ds : Dataset) (data : List HeatPoint) :
    ds.foldl (heatmapStep b type) data = data ++ ds.filterMap (eligiblePoint b type) := by
  induction ds generalizing data with
  | nil => simp
  | cons st ds ih =>
    rw [List.foldl_cons, ih, heatmapStep_eq b type hty]
    cases h : eligiblePoint b type st <;> simp [List.filterMap_cons, h]

/-- The points returned are those of the stations that have a location and
whose value passes the guards of the source, in dataset order. -/
theorem generateHeatmapData_eq_filterMap (b : Builtins) (ds : Dataset) (type : String)
    (hty : type = "temperature" ∨ type = "humidity") :
    generateHeatmapData b (.object ds) type = ds.filterMap (eligiblePoint b type) := by
  simp [generateHeatmapData, foldl_heatmapStep b type hty]

theorem eligiblePoint_A_temperature :
    eligiblePoint decimalBuiltins "temperature" (some stationA) =
      some { lat := .fin (31 / 5), lng := .fin (-151 / 2), intensity := .fin (13 / 20) } := by
  simp [eligiblePoint, location, stationA, infoA, truthy, metricField, notSentinel, isNaN,
    parseFloat, heatPoint, normalizeValue_temperature_fin]
  norm_num

theorem eligiblePoint_B_temperature :
    eligiblePoint decimalBuiltins "temperature" (some stationB) = none := by
  simp [eligiblePoint, location, stationB, infoB, truthy, metricField, notSentinel]

theorem eligiblePoint_A_humidity :
    eligiblePoint decimalBuiltins "humidity" (some stationA) =
      some { lat := .fin (31 / 5), lng := .fin (-151 / 2), intensity := .fin (3 / 5) } := by
  simp [eligiblePoint, location, stationA, infoA, truthy, metricField, notSentinel, isNaN,
    parseFloat, heatPoint, normalizeValue_humidity_fin]
  norm_num

theorem eligiblePoint_B_humidity :
    eligiblePoint decimalBuiltins "humidity" (some stationB) =
      some { lat := .fin (63 / 10), lng := .fin (-378 / 5), intensity := .fin (2 / 5) } := by
  simp [eligiblePoint, location, stationB, infoB, truthy, metricField, notSentinel, isNaN,
    parseFloat, heatPoint, normalizeValue_humidity_fin]
  norm_num

theorem generateHeatmapData_AB_temperature :
    generateHeatmapData decimalBuiltins (.object datasetAB) "temperature" =
      [{ lat := .fin (31 / 5), lng := .fin (-151 / 2), intensity := .fin (13 / 20) }] := by
  simp [generateHeatmapData, datasetAB, foldl_heatmapStep _ _ (Or.inl rfl), List.filterMap_cons,
    eligiblePoint_A_temperature, eligiblePoint_B_temperature]

theorem generateHeatmapData_AB_humidity :
    generateHeatmapData decimalBuiltins (.object datasetAB) "humidity" =
      [{ lat := .fin (31 / 5), lng := .fin (-151 / 2), intensity := .fin (3 / 5) },
       { lat := .fin (63 / 10), lng := .fin (-378 / 5), intensity := .fin (2 / 5) }] := by
  simp [generateHeatmapData, datasetAB, foldl_heatmapStep _ _ (Or.inr rfl), List.filterMap_cons,
    eligiblePoint_A_humidity, eligiblePoint_B_humidity]

/-- C4 (evaluation at the failing input): for the dataset of A (temperature 28)
and B (sentinel temperature) the temperature points are the single point of A
with intensity 0.65, and an empty dataset yields an empty list; but station A
with the number 0 as temperature, which has a location and a temperature that
is neither `undefined` nor the sentinel, so that the claim gives it one point
of intensity `normalizeValue(0, temperature) = 0`, gets no point:
`station.t && ...` is falsy for 0. -/
theorem generateHeatmapData_zero_temperature_dropped :
    generateHeatmapData decimalBuiltins (.object datasetAB) "temperature" =
      [{ lat := .fin (31 / 5), lng := .fin (-151 / 2), intensity := .fin (13 / 20) }] ∧
    generateHeatmapData decimalBuiltins (.object []) "temperature" = [] ∧
    generateHeatmapData decimalBuiltins (.object []) "humidity" = [] ∧
    available stationZeroTemp.t = true ∧
    [some stationZeroTemp].filterMap (statedPoint decimalBuiltins "temperature") =
      [{ lat := .fin (31 / 5), lng := .fin (-151 / 2), intensity := .fin 0 }] ∧
    generateHeatmapData decimalBuiltins (.object [some stationZeroTemp]) "temperature" = [] := by
  refine ⟨generateHeatmapData_AB_temperature, rfl, rfl,
    by simp [available, defined, notSentinel, stationZeroTemp, stationA], ?_, ?_⟩
  · simp [List.filterMap_cons, statedPoint, location, stationZeroTemp, stationA, infoA, truthy,
      metricField, available, defined, notSentinel, parseFloat, heatPoint,
      normalizeValue_temperature_fin]
    norm_num
  · simp [generateHeatmapData, heatmapStep, stationZeroTemp, stationA, infoA, truthy]

/-! ## Theorems: overlay state machine -/

theorem clearHeatmap_currentHeatmapType (s : MapManager) :
    (clearHeatmap s).currentHeatmapType = none := rfl

theorem clearHeatmap_heatmapLayer (s : MapManager) : (clearHeatmap s).heatmapLayer = none := by
  unfold clearHeatmap
  cases h : s.heatmapLayer <;> simp [h]

theorem clearHeatmap_stationsData (s : MapManager) :
    (clearHeatmap s).stationsData = s.stationsData := by
  unfold clearHeatmap
  cases h : s.heatmapLayer <;> simp

theorem clearHeatmap_nextId (s : MapManager) : (clearHeatmap s).nextId = s.nextId := by
  unfold clearHeatmap
  cases h : s.heatmapLayer <;> simp

theorem clearHeatmap_markers (s : MapManager) : (clearHeatmap s).markers = s.markers := by
  unfold clearHeatmap
  cases h : s.heatmapLayer <;> simp

theorem showHeatmap_currentHeatmapType (b : Builtins) (r : Renderer) (type : String)
    (s : MapManager) : (showHeatmap b r type s).currentHeatmapType = none := by
  simp only [showHeatmap]
  split_ifs
  · exact clearHeatmap_currentHeatmapType _
  · exact clearHeatmap_currentHeatmapType _
  · split <;> simp [clearHeatmap_currentHeatmapType]

/-- C1 (evaluation on every input): after `showHeatmap(type)` returns,
`currentHeatmapType` is `null` whatever the type and the prior state: the type
assigned by the first statement is reset by the `clearHeatmap(false)` call that
follows it. -/
theorem showHeatmap_currentHeatmapType_null (b : Builtins) (r : Renderer) (type : String)
    (s : MapManager) :
    (showHeatmap b r type s).currentHeatmapType = none ∧
    (showHeatmap decimalBuiltins workingRenderer "temperature"
      MapManager.init).currentHeatmapType ≠ some "temperature" := by
  exact ⟨showHeatmap_currentHeatmapType b r type s,
    by rw [showHeatmap_currentHeatmapType]; simp⟩

/-- C10 (as amended): when the client throws, `loadStationsData` rejects with
the error thrown; when the response has `success = false`, it resolves normally
with the prior `stationsData`; in both cases the state (`stationsData`, marker
list, `currentHeatmapType`, `heatmapLayer`, `stationsVisible`, map layers) is the
same after the call as before it. -/
theorem loadStationsData_failure (b : Builtins) (r : Renderer) (silent : Bool) (s : MapManager)
    (e : String) (data : StationsData) :
    loadStationsData b r silent (.throws e) s = (s, .error (.thrown e)) ∧
    loadStationsData b r silent (.response false data) s = (s, .ok s.stationsData) :=
  ⟨rfl, rfl⟩

/-- C10 (counterexample): for a response with `success = false` the call does
not surface an error: from the initial state it resolves with the prior
(empty) dataset. -/
theorem loadStationsData_unsuccessful_resolves :
    (loadStationsData decimalBuiltins workingRenderer false
      (.response false (.object datasetAB)) MapManager.init).2 = .ok (.object []) ∧
    ∀ e, (loadStationsData decimalBuiltins workingRenderer false
      (.response false (.object datasetAB)) MapManager.init).2 ≠ .error e := by
  refine ⟨rfl, ?_⟩
  intro e h
  simp [loadStationsData] at h

theorem showHeatmap_stationsData (b : Builtins) (r : Renderer) (type : String) (s : MapManager) :
    (showHeatmap b r type s).stationsData = s.stationsData := by
  simp only [showHeatmap]
  split_ifs
  · exact clearHeatmap_stationsData _
  · exact clearHeatmap_stationsData _
  · split <;> simp [clearHeatmap_stationsData]

theorem showHeatmap_markers (b : Builtins) (r : Renderer) (type : String) (s : MapManager) :
    (showHeatmap b r type s).markers = s.markers := by
  simp only [showHeatmap]
  split_ifs
  · exact clearHeatmap_markers _
  · exact clearHeatmap_markers _
  · split <;> simp [clearHeatmap_markers]

theorem showHeatmap_of_added (b : Builtins) (r : Renderer) (type : String) (s : MapManager)
    (hr : r.heatLayerAvailable = true)
    (hd : generateHeatmapData b s.stationsData type ≠ [])
    (ha : r.heatLayer (generateHeatmapData b s.stationsData type) = .added) :
    (showHeatmap b r type s).heatmapLayer =
      some { id := s.nextId, data := generateHeatmapData b s.stationsData type,
             gradient := getHeatmapGradient type } ∧
    (showHeatmap b r type s).nextId = s.nextId + 1 := by
  have hd2 : (generateHeatmapData b s.stationsData type).length ≠ 0 := by
    simpa [List.length_eq_zero] using hd
  simp only [showHeatmap, clearHeatmap_stationsData, clearHeatmap_nextId]
  rw [if_neg hd2]
  simp [hr, ha]

theorem showHeatmap_of_throwsAfter (b : Builtins) (r : Renderer) (type : String) (s : MapManager)
    (hr : r.heatLayerAvailable = true)
    (hd : generateHeatmapData b s.stationsData type ≠ [])
    (ha : r.heatLayer (generateHeatmapData b s.stationsData type) = .throwsAfter) :
    (showHeatmap b r type s).heatmapLayer = none ∧
    (showHeatmap b r type s).nextId = s.nextId + 1 ∧
    (showHeatmap b r type s).layers =
      addLayer (.heat { id := s.nextId, data := generateHeatmapData b s.stationsData type,
                        gradient := getHeatmapGradient type })
        (clearHeatmap { s with currentHeatmapType := some type }).layers := by
  have hd2 : (generateHeatmapData b s.stationsData type).length ≠ 0 := by
    simpa [List.length_eq_zero] using hd
  simp only [showHeatmap, clearHeatmap_stationsData, clearHeatmap_nextId]
  rw [if_neg hd2]
  simp [hr, ha, clearHeatmap_heatmapLayer]

theorem clearMarkers_fields (s : MapManager) :
    (clearMarkers s).heatmapLayer = s.heatmapLayer ∧
    (clearMarkers s).currentHeatmapType = s.currentHeatmapType ∧
    (clearMarkers s).stationsData = s.stationsData ∧
    (clearMarkers s).stationsVisible = s.stationsVisible ∧
    (clearMarkers s).nextId = s.nextId := ⟨rfl, rfl, rfl, rfl, rfl⟩

theorem addStationStep_fields (b : Builtins) (r : Renderer) (s : MapManager)
    (station : Option Station) :
    (addStationStep b r s station).1.heatmapLayer = s.heatmapLayer ∧
    (addStationStep b r s station).1.currentHeatmapType = s.currentHeatmapType ∧
    (addStationStep b r s station).1.stationsData = s.stationsData ∧
    (addStationStep b r s station).1.stationsVisible = s.stationsVisible := by
  unfold addStationStep
  split
  · exact ⟨rfl, rfl, rfl, rfl⟩
  · split
    · exact ⟨rfl, rfl, rfl, rfl⟩
    · split
      · exact ⟨rfl, rfl, rfl, rfl⟩
      · exact ⟨rfl, rfl, rfl, rfl⟩
      · dsimp only
        split <;> exact ⟨rfl, rfl, rfl, rfl⟩

theorem addStations_fields (b : Builtins) (r : Renderer) (ds : Dataset) (s : MapManager) :
    (addStations b r ds s).1.heatmapLayer = s.heatmapLayer ∧
    (addStations b r ds s).1.currentHeatmapType = s.currentHeatmapType ∧
    (addStations b r ds s).1.stationsData = s.stationsData ∧
    (addStations b r ds s).1.stationsVisible = s.stationsVisible := by
  induction ds generalizing s with
  | nil => exact ⟨rfl, rfl, rfl, rfl⟩
  | cons st ds ih =>
    have g := addStationStep_fields b r s st
    unfold addStations
    cases hstep : addStationStep b r s st with
    | mk s2 e =>
      rw [hstep] at g
      cases e with
      | some e => exact g
      | none =>
        obtain ⟨h1, h2, h3, h4⟩ := ih s2
        obtain ⟨g1, g2, g3, g4⟩ := g
        exact ⟨h1.trans g1, h2.trans g2, h3.trans g3, h4.trans g4⟩

theorem addStationsToMap_fields (b : Builtins) (r : Renderer) (s : MapManager) :
    (addStationsToMap b r s).1.heatmapLayer = s.heatmapLayer ∧
    (addStationsToMap b r s).1.currentHeatmapType = s.currentHeatmapType ∧
    (addStationsToMap b r s).1.stationsData = s.stationsData ∧
    (addStationsToMap b r s).1.stationsVisible = s.stationsVisible := by
  unfold addStationsToMap
  dsimp only
  split
  · rename_i stations _
    exact addStations_fields b r stations (clearMarkers s)
  · exact ⟨rfl, rfl, rfl, rfl⟩

theorem stationMarkers_cons (b : Builtins) (id : Nat) (station : Option Station)
    (rest : Dataset) :
    stationMarkers b id (station :: rest) =
      stationMarkers b id [station] ++
        stationMarkers b (id + (stationMarkers b id [station]).length) rest := by
  cases h : location station with
  | none => simp [stationMarkers, h]
  | some p =>
    obtain ⟨st, info⟩ := p
    simp [stationMarkers, h]

theorem addStationStep_of_no_error (b : Builtins) (r : Renderer) (s : MapManager)
    (station : Option Station)
    (hm : ∀ st info, location station = some (st, info) →
      r.markerError info.latitud info.longitud = none) :
    (addStationStep b r s station).2 = none ∧
    (addStationStep b r s station).1.markers =
      s.markers ++ stationMarkers b s.nextId [station] ∧
    (addStationStep b r s station).1.nextId =
      s.nextId + (stationMarkers b s.nextId [station]).length := by
  cases station with
  | none => simp [addStationStep, stationMarkers, location]
  | some st =>
    cases hinfo : st.info with
    | none => simp [addStationStep, stationMarkers, location, hinfo]
    | some info =>
      cases h1 : truthy info.latitud with
      | false => simp [addStationStep, stationMarkers, location, hinfo, createStationMarker, h1]
      | true =>
        cases h2 : truthy info.longitud with
        | false =>
          simp [addStationStep, stationMarkers, location, hinfo, createStationMarker, h1, h2]
        | true =>
          have hloc : location (some st) = some (st, info) := by
            simp [location, hinfo, h1, h2]
          have hme := hm st info hloc
          simp only [addStationStep, hinfo, createStationMarker_ok b r _ st info h1 h2 hme,
            stationMarkers, hloc]
          split_ifs <;> simp

theorem addStations_of_no_error (b : Builtins) (r : Renderer) (ds : Dataset) (s : MapManager)
    (hm : ∀ station ∈ ds, ∀ st info, location station = some (st, info) →
      r.markerError info.latitud info.longitud = none) :
    (addStations b r ds s).2 = none ∧
    (addStations b r ds s).1.markers = s.markers ++ stationMarkers b s.nextId ds ∧
    (addStations b r ds s).1.nextId = s.nextId + (stationMarkers b s.nextId ds).length := by
  induction ds generalizing s with
  | nil => simp [addStations, stationMarkers]
  | cons st ds ih =>
    obtain ⟨g1, g2, g3⟩ := addStationStep_of_no_error b r s st
      (hm st (List.mem_cons_self _ _))
    unfold addStations
    cases hstep : addStationStep b r s st with
    | mk s2 e =>
      rw [hstep] at g1 g2 g3
      simp only at g1 g2 g3
      subst g1
      obtain ⟨h1, h2, h3⟩ := ih s2 (fun x hx => hm x (List.mem_cons_of_mem _ hx))
      refine ⟨h1, ?_, ?_⟩
      · simp only
        rw [h2, g2, g3, stationMarkers_cons b s.nextId st ds, List.append_assoc]
      · simp only
        rw [h3, g3, stationMarkers_cons b s.nextId st ds, List.length_append, Nat.add_assoc]

theorem addStationsToMap_of_no_error (b : Builtins) (r : Renderer) (ds : Dataset)
    (s : MapManager)
    (hm : ∀ station ∈ ds, ∀ st info, location station = some (st, info) →
      r.markerError info.latitud info.longitud = none) :
    (addStationsToMap b r { s with stationsData := .object ds }).2 = none ∧
    (addStationsToMap b r { s with stationsData := .object ds }).1.markers =
      stationMarkers b s.nextId ds ∧
    (addStationsToMap b r { s with stationsData := .object ds }).1.nextId =
      s.nextId + (stationMarkers b s.nextId ds).length := by
  have h := addStations_of_no_error b r ds (clearMarkers { s with stationsData := .object ds }) hm
  simpa [addStationsToMap, clearMarkers] using h

theorem refreshData_of_no_error (b : Builtins) (r : Renderer) (ds : Dataset) (s : MapManager)
    (h0 : s.currentHeatmapType = none)
    (hm : ∀ station ∈ ds, ∀ st info, location station = some (st, info) →
      r.markerError info.latitud info.longitud = none) :
    refreshData b r (.response true (.object ds)) s =
      (showHeatmap b r "temperature" (addStationsToMap b r { s with stationsData := .object ds }).1,
       .ok (.object ds)) := by
  have hf := addStationsToMap_fields b r { s with stationsData := .object ds }
  have he := (addStationsToMap_of_no_error b r ds s hm).1
  have hn : noHeatmapType (addStationsToMap b r { s with stationsData := .object ds }).1 =
      true := by
    unfold noHeatmapType
    rw [hf.2.1]
    simp [h0]
  have hsd : (showHeatmap b r "temperature"
      (addStationsToMap b r { s with stationsData := .object ds }).1).stationsData =
      .object ds := by
    rw [showHeatmap_stationsData]; exact hf.2.2.1
  cases hadd : addStationsToMap b r { s with stationsData := .object ds } with
  | mk s2 e =>
    rw [hadd] at he hn hsd
    simp only at he hn hsd
    subst he
    simp [refreshData, loadStationsData, hadd, hn, hsd]

theorem location_A : location (some stationA) = some (stationA, infoA) := by
  simp [location, stationA, infoA, truthy]

theorem location_B : location (some stationB) = some (stationB, infoB) := by
  simp [location, stationB, infoB, truthy]

theorem markerError_datasetAB (r : Renderer) (hr : r.markerError = leafletMarkerError) :
    ∀ station ∈ datasetAB, ∀ st info, location station = some (st, info) →
      r.markerError info.latitud info.longitud = none := by
  intro station hs st info hl
  rw [hr]
  simp only [datasetAB, List.mem_cons, List.mem_singleton, List.not_mem_nil, or_false] at hs
  rcases hs with rfl | rfl
  · rw [location_A] at hl
    simp only [Option.some.injEq, Prod.mk.injEq] at hl
    rw [← hl.2]; exact markerError_infoA
  · rw [location_B] at hl
    simp only [Option.some.injEq, Prod.mk.injEq] at hl
    rw [← hl.2]; exact markerError_infoB

theorem stationMarkers_AB_length (n : Nat) :
    (stationMarkers decimalBuiltins n datasetAB).length = 2 := by
  simp [stationMarkers, datasetAB, location_A, location_B]

/-- C2 (as amended): for every manager state whose overlay state is Inactive
(`currentHeatmapType` is `null`) and every successfully fetched dataset whose
markers Leaflet builds without throwing, `refreshData` (`loadStationsData`)
resolves with the new dataset after installing it, rebuilding the marker list
from it (one marker per station with a location, in dataset order) and invoking
`showHeatmap('temperature')` on it: when the plugin is available and adds the
layer, `heatmapLayer` is afterwards the temperature layer of the new dataset,
if that dataset has temperature points. -/
theorem refreshData_success (b : Builtins) (r : Renderer) (ds : Dataset) (s : MapManager)
    (h0 : s.currentHeatmapType = none)
    (hm : ∀ station ∈ ds, ∀ st info, location station = some (st, info) →
      r.markerError info.latitud info.longitud = none) :
    refreshData b r (.response true (.object ds)) s =
      (showHeatmap b r "temperature"
        (addStationsToMap b r { s with stationsData := .object ds }).1, .ok (.object ds)) ∧
    (addStationsToMap b r { s with stationsData := .object ds }).1.stationsData = .object ds ∧
    (refreshData b r (.response true (.object ds)) s).1.stationsData = .object ds ∧
    (refreshData b r (.response true (.object ds)) s).1.markers = stationMarkers b s.nextId ds ∧
    (r.heatLayerAvailable = true →
      generateHeatmapData b (.object ds) "temperature" ≠ [] →
      r.heatLayer (generateHeatmapData b (.object ds) "temperature") = .added →
      (refreshData b r (.response true (.object ds)) s).1.heatmapLayer =
        some { id := s.nextId + (stationMarkers b s.nextId ds).length,
               data := generateHeatmapData b (.object ds) "temperature",
               gradient := getHeatmapGradient "temperature" }) := by
  have hr := refreshData_of_no_error b r ds s h0 hm
  have hf := addStationsToMap_fields b r { s with stationsData := .object ds }
  have ha := addStationsToMap_of_no_error b r ds s hm
  have hsd : (addStationsToMap b r { s with stationsData := .object ds }).1.stationsData =
      .object ds := hf.2.2.1
  refine ⟨hr, hsd, ?_, ?_, ?_⟩
  · rw [hr]; simp only; rw [showHeatmap_stationsData]; exact hsd
  · rw [hr]; simp only; rw [showHeatmap_markers]; exact ha.2.1
  · intro hav hd hadd
    rw [hr]
    simp only
    have := (showHeatmap_of_added b r "temperature"
      (addStationsToMap b r { s with stationsData := .object ds }).1 hav
      (by rw [hsd]; exact hd) (by rw [hsd]; exact hadd)).1
    rw [this, hsd, ha.2.2]

/-- Witness of C2 (as amended): from the initial state, a successful refresh
with the dataset of stations A and B rebuilds the two markers and installs the
temperature layer of station A. -/
theorem refreshData_success_witness :
    MapManager.init.currentHeatmapType = none ∧
    (refreshData decimalBuiltins workingRenderer (.response true (.object datasetAB))
        MapManager.init).2 = .ok (.object datasetAB) ∧
    (refreshData decimalBuiltins workingRenderer (.response true (.object datasetAB))
        MapManager.init).1.markers =
      [{ id := 0, lat := .num (.fin (31 / 5)), lng := .num (.fin (-151 / 2)),
         tone := MarkerTier.Full.tone,
         tooltip := createTooltipContent decimalBuiltins stationA infoA },
       { id := 1, lat := .num (.fin (63 / 10)), lng := .num (.fin (-378 / 5)),
         tone := MarkerTier.Partial.tone,
         tooltip := createTooltipContent decimalBuiltins stationB infoB }] ∧
    (refreshData decimalBuiltins workingRenderer (.response true (.object datasetAB))
        MapManager.init).1.heatmapLayer =
      some { id := 2,
             data := [{ lat := .fin (31 / 5), lng := .fin (-151 / 2), intensity := .fin (13 / 20) }],
             gradient := getHeatmapGradient "temperature" } := by
  have h := refreshData_success decimalBuiltins workingRenderer datasetAB MapManager.init rfl
    (markerError_datasetAB workingRenderer rfl)
  refine ⟨rfl, ?_, ?_, ?_⟩
  · rw [h.1]
  · rw [h.2.2.2.1]
    have hA : markerTone stationA = MarkerTier.Full.tone := by
      simp [markerTone_eq, stationA, truthy, notSentinel, defined]
    have hB : markerTone stationB = MarkerTier.Partial.tone := by
      simp [markerTone_eq, stationB, truthy, notSentinel, defined]
    simp [stationMarkers, datasetAB, location_A, location_B, hA, hB, MapManager.init, infoA,
      infoB]
  · have := h.2.2.2.2 rfl (by rw [generateHeatmapData_AB_temperature]; simp) rfl
    rw [this, generateHeatmapData_AB_temperature, stationMarkers_AB_length]
    rfl

theorem refreshData_AB_working (s : MapManager) (h0 : s.currentHeatmapType = none) :
    (refreshData decimalBuiltins workingRenderer (.response true (.object datasetAB))
        s).1.heatmapLayer =
      some { id := s.nextId + 2,
             data := [{ lat := .fin (31 / 5), lng := .fin (-151 / 2), intensity := .fin (13 / 20) }],
             gradient := getHeatmapGradient "temperature" } ∧
    (refreshData decimalBuiltins workingRenderer (.response true (.object datasetAB))
        s).1.nextId = s.nextId + 3 ∧
    (refreshData decimalBuiltins workingRenderer (.response true (.object datasetAB))
        s).1.currentHeatmapType = none ∧
    (refreshData decimalBuiltins workingRenderer (.response true (.object datasetAB))
        s).1.stationsData = .object datasetAB := by
  have hr := refreshData_of_no_error decimalBuiltins workingRenderer datasetAB s h0
    (markerError_datasetAB workingRenderer rfl)
  have hf := addStationsToMap_fields decimalBuiltins workingRenderer
    { s with stationsData := .object datasetAB }
  have ha := addStationsToMap_of_no_error decimalBuiltins workingRenderer datasetAB s
    (markerError_datasetAB workingRenderer rfl)
  have hsd : (addStationsToMap decimalBuiltins workingRenderer
      { s with stationsData := .object datasetAB }).1.stationsData = .object datasetAB :=
    hf.2.2.1
  have hs := showHeatmap_of_added decimalBuiltins workingRenderer "temperature"
    (addStationsToMap decimalBuiltins workingRenderer
      { s with stationsData := .object datasetAB }).1 rfl
    (by rw [hsd, generateHeatmapData_AB_temperature]; simp) rfl
  rw [hr]
  simp only
  refine ⟨?_, ?_, showHeatmap_currentHeatmapType _ _ _ _, ?_⟩
  · rw [hs.1, hsd, generateHeatmapData_AB_temperature, ha.2.2, stationMarkers_AB_length]
  · rw [hs.2, ha.2.2, stationMarkers_AB_length]
  · rw [showHeatmap_stationsData]; exact hsd

theorem showHeatmap_humidity_AB_working (s : MapManager)
    (hsd : s.stationsData = .object datasetAB) :
    (showHeatmap decimalBuiltins workingRenderer "humidity" s).heatmapLayer =
      some { id := s.nextId,
             data := [{ lat := .fin (31 / 5), lng := .fin (-151 / 2), intensity := .fin (3 / 5) },
                      { lat := .fin (63 / 10), lng := .fin (-378 / 5), intensity := .fin (2 / 5) }],
             gradient := getHeatmapGradient "humidity" } ∧
    (showHeatmap decimalBuiltins workingRenderer "humidity" s).nextId = s.nextId + 1 := by
  have hs := showHeatmap_of_added decimalBuiltins workingRenderer "humidity" s rfl
    (by rw [hsd, generateHeatmapData_AB_humidity]; simp) rfl
  rw [hsd, generateHeatmapData_AB_humidity] at hs
  exact hs

theorem isNaN_toNumber_abc : isNaN (toNumber (.str "abc")) = true := by rfl

/-- C2 (counterexample): from the initial state, which is Inactive, a
successful refresh changes `heatmapLayer` from `null` to a temperature layer;
after that refresh and `showHeatmap('humidity')` the layer displayed is the
humidity one, and a second successful refresh replaces it by a temperature
layer; and for a dataset whose station has the latitude `'abc'` the refresh
rejects with the error thrown by `L.marker`. -/
theorem refreshData_inactive_shows_temperature :
    (MapManager.init.currentHeatmapType = none ∧ MapManager.init.heatmapLayer = none ∧
      (refreshData decimalBuiltins workingRenderer (.response true (.object datasetAB))
          MapManager.init).1.heatmapLayer =
        some { id := 2,
               data := [{ lat := .fin (31 / 5), lng := .fin (-151 / 2),
                          intensity := .fin (13 / 20) }],
               gradient := getHeatmapGradient "temperature" }) ∧
    ((run decimalBuiltins workingRenderer MapManager.init
          [.refreshData (.response true (.object datasetAB)),
           .showHeatmap "humidity"]).heatmapLayer =
        some { id := 3,
               data := [{ lat := .fin (31 / 5), lng := .fin (-151 / 2),
                          intensity := .fin (3 / 5) },
                        { lat := .fin (63 / 10), lng := .fin (-378 / 5),
                          intensity := .fin (2 / 5) }],
               gradient := getHeatmapGradient "humidity" } ∧
      (run decimalBuiltins workingRenderer MapManager.init
          [.refreshData (.response true (.object datasetAB)), .showHeatmap "humidity",
           .refreshData (.response true (.object datasetAB))]).heatmapLayer =
        some { id := 6,
               data := [{ lat := .fin (31 / 5), lng := .fin (-151 / 2),
                          intensity := .fin (13 / 20) }],
               gradient := getHeatmapGradient "temperature" }) ∧
    ∃ e, (refreshData decimalBuiltins workingRenderer
        (.response true (.object [some stationBadLatitude])) MapManager.init).2 =
      .error (.thrown e) := by
  have h1 := refreshData_AB_working MapManager.init rfl
  have h2 := showHeatmap_humidity_AB_working
    (refreshData decimalBuiltins workingRenderer (.response true (.object datasetAB))
      MapManager.init).1 h1.2.2.2
  have h3 := refreshData_AB_working
    (showHeatmap decimalBuiltins workingRenderer "humidity"
      (refreshData decimalBuiltins workingRenderer (.response true (.object datasetAB))
        MapManager.init).1) (showHeatmap_currentHeatmapType _ _ _ _)
  refine ⟨⟨rfl, rfl, h1.1⟩, ⟨?_, ?_⟩, ?_⟩
  · simp only [run, List.foldl_cons, List.foldl_nil, step]
    rw [h2.1, h1.2.1]; rfl
  · simp only [run, List.foldl_cons, List.foldl_nil, step]
    rw [h3.1, h2.2, h1.2.1]; rfl
  · refine ⟨"Invalid LatLng object: (" ++ toStr decimalBuiltins (.str "abc") ++ ", " ++
      toStr decimalBuiltins (.num (.fin (-151 / 2))) ++ ")", ?_⟩
    simp [refreshData, loadStationsData, addStationsToMap, clearMarkers, addStations,
      addStationStep, createStationMarker, stationBadLatitude, stationA, infoA, truthy,
      workingRenderer, leafletMarkerError, isNaN_toNumber_abc, MapManager.init]

/-! ## Theorems: at most one heatmap layer -/

theorem Layer.id_marker (m : Marker) : (Layer.marker m).id = m.id := rfl

theorem Layer.id_heat (h : HeatLayer) : (Layer.heat h).id = h.id := rfl

theorem heatLayers_append (xs ys : List Layer) :
    heatLayers (xs ++ ys) = heatLayers xs ++ heatLayers ys := by
  induction xs with
  | nil => rfl
  | cons x xs ih => cases x <;> simp [heatLayers, ih]

theorem heatLayers_addLayer_marker (m : Marker) (ls : List Layer) :
    heatLayers (addLayer (.marker m) ls) = heatLayers ls := by
  unfold addLayer
  split
  · rfl
  · simp [heatLayers_append, heatLayers]

theorem heatLayers_addLayer_fresh (h : HeatLayer) (ls : List Layer)
    (hf : ∀ l ∈ ls, l.id < h.id) :
    heatLayers (addLayer (.heat h) ls) = heatLayers ls ++ [h] := by
  unfold addLayer
  have hn : ls.any (fun x => x.id == (Layer.heat h).id) = false := by
    rw [List.any_eq_false]
    intro x hx
    have := hf x hx
    rw [Layer.id_heat]
    simpa using Nat.ne_of_lt this
  simp [hn, heatLayers_append, heatLayers]

theorem heatLayers_removeLayer (id : Nat) (ls : List Layer) :
    heatLayers (removeLayer id ls) = (heatLayers ls).filter (fun h => h.id != id) := by
  unfold removeLayer
  induction ls with
  | nil => rfl
  | cons x xs ih =>
    cases x with
    | marker m =>
      by_cases hm : m.id = id <;>
        simp [List.filter_cons, heatLayers, Layer.id_marker, hm, ih]
    | heat h =>
      by_cases hh : h.id = id <;>
        simp [List.filter_cons, heatLayers, Layer.id_heat, hh, ih]

theorem mem_addLayer (l x : Layer) (ls : List Layer) (hx : x ∈ addLayer l ls) :
    x ∈ ls ∨ x = l := by
  unfold addLayer at hx
  split at hx
  · exact Or.inl hx
  · simpa using hx

theorem mem_removeLayer (id : Nat) (x : Layer) (ls : List Layer) (hx : x ∈ removeLayer id ls) :
    x ∈ ls := by
  unfold removeLayer at hx
  exact (List.mem_filter.mp hx).1

theorem heatLayers_foldl_addMarkers (ms : List Marker) (ls : List Layer) :
    heatLayers (ms.foldl (fun ls m => addLayer (.marker m) ls) ls) = heatLayers ls := by
  induction ms generalizing ls with
  | nil => rfl
  | cons m ms ih => rw [List.foldl_cons, ih, heatLayers_addLayer_marker]

theorem mem_foldl_addMarkers (ms : List Marker) (ls : List Layer) (x : Layer)
    (hx : x ∈ ms.foldl (fun ls m => addLayer (.marker m) ls) ls) :
    x ∈ ls ∨ ∃ m ∈ ms, x = .marker m := by
  induction ms generalizing ls with
  | nil => exact Or.inl hx
  | cons m ms ih =>
    rw [List.foldl_cons] at hx
    rcases ih _ hx with h | ⟨m2, hm2, rfl⟩
    · rcases mem_addLayer _ _ _ h with h | rfl
      · exact Or.inl h
      · exact Or.inr ⟨m, List.mem_cons_self _ _, rfl⟩
    · exact Or.inr ⟨m2, List.mem_cons_of_mem _ hm2, rfl⟩

theorem heatLayers_foldl_removeMarkers (ms : List Marker) (ls : List Layer)
    (hne : ∀ m ∈ ms, ∀ h ∈ heatLayers ls, m.id ≠ h.id) :
    heatLayers (ms.foldl (fun ls m => removeLayer m.id ls) ls) = heatLayers ls := by
  induction ms generalizing ls with
  | nil => rfl
  | cons m ms ih =>
    rw [List.foldl_cons]
    have h1 : heatLayers (removeLayer m.id ls) = heatLayers ls := by
      rw [heatLayers_removeLayer, List.filter_eq_self]
      intro h hh
      have := hne m (List.mem_cons_self _ _) h hh
      simp only [bne_iff_ne, ne_eq]
      exact fun e => this e.symm
    rw [ih, h1]
    intro m2 hm2 h hh
    rw [h1] at hh
    exact hne m2 (List.mem_cons_of_mem _ hm2) h hh

theorem mem_foldl_removeMarkers (ms : List Marker) (ls : List Layer) (x : Layer)
    (hx : x ∈ ms.foldl (fun ls m => removeLayer m.id ls) ls) : x ∈ ls := by
  induction ms generalizing ls with
  | nil => exact hx
  | cons m ms ih =>
    rw [List.foldl_cons] at hx
    exact mem_removeLayer _ _ _ (ih _ hx)

theorem OverlayInv_init : OverlayInv MapManager.init := by
  simp [OverlayInv, MapManager.init, heatLayers]

theorem OverlayInv_stationsData (s : MapManager) (d : StationsData) (h : OverlayInv s) :
    OverlayInv { s with stationsData := d } := h

theorem OverlayInv_currentHeatmapType (s : MapManager) (t : Option String) (h : OverlayInv s) :
    OverlayInv { s with currentHeatmapType := t } := h

theorem OverlayInv_clearHeatmap (s : MapManager) (h : OverlayInv s) :
    OverlayInv (clearHeatmap s) ∧ (clearHeatmap s).heatmapLayer = none := by
  refine ⟨?_, clearHeatmap_heatmapLayer s⟩
  obtain ⟨h1, h2, h3, h4, h5⟩ := h
  unfold clearHeatmap
  cases hl : s.heatmapLayer with
  | none =>
    simp only
    exact ⟨by rw [h1, hl], h2, h3, by simp [hl], by simp [hl]⟩
  | some hly =>
    simp only
    refine ⟨?_, ?_, h3, by simp, by simp⟩
    · rw [heatLayers_removeLayer, h1, hl]
      simp [List.filter_cons]
    · intro l hlm
      exact h2 l (mem_removeLayer _ _ _ hlm)

theorem OverlayInv_showHeatmap (b : Builtins) (r : Renderer) (type : String) (s : MapManager)
    (hr : ∀ data, r.heatLayer data ≠ .throwsAfter) (h : OverlayInv s) :
    OverlayInv (showHeatmap b r type s) := by
  obtain ⟨hc, hnone⟩ := OverlayInv_clearHeatmap { s with currentHeatmapType := some type }
    (OverlayInv_currentHeatmapType s _ h)
  simp only [showHeatmap]
  split_ifs
  · exact hc
  · exact hc
  · split
    rotate_left
    · exact hc
    · rename_i hout
      exact absurd hout (hr _)
    obtain ⟨h1, h2, h3, _, _⟩ := hc
    refine ⟨?_, ?_, ?_, ?_, ?_⟩
    · simp only
      rw [heatLayers_addLayer_fresh _ _ (fun l hl => h2 l hl), h1, hnone]
      rfl
    · intro l hl
      rcases mem_addLayer _ _ _ hl with hl | rfl
      · exact Nat.lt_succ_of_lt (h2 l hl)
      · exact Nat.lt_succ_self _
    · intro m hm
      exact Nat.lt_succ_of_lt (h3 m hm)
    · intro hly hh
      simp only [Option.some.injEq] at hh
      subst hh
      exact Nat.lt_succ_self _
    · intro m hm hly hh
      simp only [Option.some.injEq] at hh
      subst hh
      exact Nat.ne_of_lt (h3 m hm)

theorem OverlayInv_removeMarkers (s : MapManager) (h : OverlayInv s) :
    heatLayers (s.markers.foldl (fun ls m => removeLayer m.id ls) s.layers) =
      s.heatmapLayer.toList := by
  obtain ⟨h1, _, _, _, h5⟩ := h
  rw [heatLayers_foldl_removeMarkers _ _ ?_, h1]
  intro m hm hly hh
  rw [h1] at hh
  exact h5 m hm hly (by simpa [Option.mem_toList] using hh)

theorem OverlayInv_toggleStations (s : MapManager) (h : OverlayInv s) :
    OverlayInv (toggleStations s) := by
  have hr := OverlayInv_removeMarkers s h
  obtain ⟨h1, h2, h3, h4, h5⟩ := h
  simp only [toggleStations]
  split_ifs
  · refine ⟨?_, ?_, h3, h4, h5⟩
    · simp only
      rw [heatLayers_foldl_addMarkers]; exact h1
    · intro l hl
      rcases mem_foldl_addMarkers _ _ _ hl with hl | ⟨m, hm, rfl⟩
      · exact h2 l hl
      · exact h3 m hm
  · refine ⟨hr, ?_, h3, h4, h5⟩
    intro l hl
    exact h2 l (mem_foldl_removeMarkers _ _ _ hl)

theorem OverlayInv_clearMarkers (s : MapManager) (h : OverlayInv s) :
    OverlayInv (clearMarkers s) := by
  have hr := OverlayInv_removeMarkers s h
  obtain ⟨h1, h2, h3, h4, h5⟩ := h
  refine ⟨hr, ?_, ?_, h4, ?_⟩
  · intro l hl
    exact h2 l (mem_foldl_removeMarkers _ _ _ hl)
  · intro m hm
    simp [clearMarkers] at hm
  · intro m hm
    simp [clearMarkers] at hm

theorem createStationMarker_id (b : Builtins) (r : Renderer) (id : Nat) (st : Station)
    (info : Info) (m : Marker) (h : createStationMarker b r id st info = .ok (some m)) :
    m.id = id := by
  unfold createStationMarker at h
  simp only at h
  split at h
  · simp at h
  · split at h
    · simp at h
    · simp only [Except.ok.injEq, Option.some.injEq] at h
      rw [← h]

theorem OverlayInv_addStationStep (b : Builtins) (r : Renderer) (s : MapManager)
    (station : Option Station) (h : OverlayInv s) :
    OverlayInv (addStationStep b r s station).1 := by
  unfold addStationStep
  split
  · exact h
  · split
    · exact h
    · split
      · exact h
      · exact h
      · rename_i marker hmk
        have hid := createStationMarker_id _ _ _ _ _ _ hmk
        obtain ⟨h1, h2, h3, h4, h5⟩ := h
        have hm3 : ∀ m ∈ s.markers ++ [marker], m.id < s.nextId + 1 := by
          intro m hm
          rcases List.mem_append.mp hm with hm | hm
          · exact Nat.lt_succ_of_lt (h3 m hm)
          · simp only [List.mem_singleton] at hm
            rw [hm, hid]; exact Nat.lt_succ_self _
        have hm5 : ∀ m ∈ s.markers ++ [marker], ∀ hly, s.heatmapLayer = some hly →
            m.id ≠ hly.id := by
          intro m hm hly hh
          rcases List.mem_append.mp hm with hm | hm
          · exact h5 m hm hly hh
          · simp only [List.mem_singleton] at hm
            rw [hm, hid]; exact Nat.ne_of_gt (h4 hly hh)
        dsimp only
        split
        · refine ⟨?_, ?_, hm3, fun hly hh => Nat.lt_succ_of_lt (h4 hly hh), hm5⟩
          · simp only
            rw [heatLayers_addLayer_marker]; exact h1
          · intro l hl
            rcases mem_addLayer _ _ _ hl with hl | rfl
            · exact Nat.lt_succ_of_lt (h2 l hl)
            · rw [Layer.id_marker, hid]; exact Nat.lt_succ_self _
        · exact ⟨h1, fun l hl => Nat.lt_succ_of_lt (h2 l hl), hm3,
            fun hly hh => Nat.lt_succ_of_lt (h4 hly hh), hm5⟩

theorem OverlayInv_addStations (b : Builtins) (r : Renderer) (ds : Dataset) (s : MapManager)
    (h : OverlayInv s) : OverlayInv (addStations b r ds s).1 := by
  induction ds generalizing s with
  | nil => exact h
  | cons st ds ih =>
    have g := OverlayInv_addStationStep b r s st h
    unfold addStations
    cases hstep : addStationStep b r s st with
    | mk s2 e =>
      rw [hstep] at g
      cases e with
      | some e => exact g
      | none => exact ih s2 g

theorem OverlayInv_addStationsToMap (b : Builtins) (r : Renderer) (s : MapManager)
    (h : OverlayInv s) : OverlayInv (addStationsToMap b r s).1 := by
  have hc := OverlayInv_clearMarkers s h
  unfold addStationsToMap
  dsimp only
  split
  · rename_i stations _
    exact OverlayInv_addStations b r stations _ hc
  · exact hc

theorem OverlayInv_loadStationsData (b : Builtins) (r : Renderer) (silent : Bool)
    (fetch : FetchResult) (s : MapManager) (hr : ∀ data, r.heatLayer data ≠ .throwsAfter)
    (h : OverlayInv s) : OverlayInv (loadStationsData b r silent fetch s).1 := by
  cases fetch with
  | throws e => exact h
  | response success data =>
    cases success with
    | false => exact h
    | true =>
      simp only [loadStationsData]
      have h1 := OverlayInv_stationsData s data h
      have h2 := OverlayInv_addStationsToMap b r _ h1
      split_ifs
      · exact h1
      · cases hadd : addStationsToMap b r { s with stationsData := data } with
        | mk s2 e =>
          rw [hadd] at h2
          cases e with
          | some e => exact h2
          | none =>
            simp only
            split_ifs
            · exact OverlayInv_showHeatmap b r _ _ hr h2
            · exact h2

theorem OverlayInv_step (b : Builtins) (r : Renderer) (s : MapManager) (op : Op)
    (hr : ∀ data, r.heatLayer data ≠ .throwsAfter) (h : OverlayInv s) :
    OverlayInv (step b r s op) := by
  cases op with
  | showHeatmap type => exact OverlayInv_showHeatmap b r type s hr h
  | clearHeatmap => exact (OverlayInv_clearHeatmap s h).1
  | toggleStations => exact OverlayInv_toggleStations s h
  | refreshData fetch => exact OverlayInv_loadStationsData b r false fetch s hr h
  | loadStationsData silent fetch => exact OverlayInv_loadStationsData b r silent fetch s hr h

theorem OverlayInv_run (b : Builtins) (r : Renderer) (ops : List Op) (s : MapManager)
    (hr : ∀ data, r.heatLayer data ≠ .throwsAfter) (h : OverlayInv s) :
    OverlayInv (run b r s ops) := by
  induction ops generalizing s with
  | nil => exact h
  | cons op ops ih => exact ih _ (OverlayInv_step b r s op hr h)

/-- For a renderer whose heat layers never throw after the map has registered
them, after any sequence of calls from the initial state the heat layers held
by the map are exactly the layer referenced by `heatmapLayer`, so at most
one. -/
theorem heatLayers_eq_heatmapLayer (b : Builtins) (r : Renderer) (ops : List Op)
    (hr : ∀ data, r.heatLayer data ≠ .throwsAfter) :
    heatLayers (run b r MapManager.init ops).layers =
        (run b r MapManager.init ops).heatmapLayer.toList ∧
      (heatLayers (run b r MapManager.init ops).layers).length ≤ 1 := by
  have hi := OverlayInv_run b r ops MapManager.init hr OverlayInv_init
  refine ⟨hi.1, ?_⟩
  rw [hi.1]
  cases (run b r MapManager.init ops).heatmapLayer <;> simp

theorem clearHeatmap_layers_of_none (s : MapManager) (hn : s.heatmapLayer = none) :
    (clearHeatmap s).layers = s.layers := by
  unfold clearHeatmap
  simp [hn]

theorem showHeatmap_orphan (b : Builtins) (r : Renderer) (type : String) (s : MapManager)
    (hr : r.heatLayerAvailable = true)
    (hd : generateHeatmapData b s.stationsData type ≠ [])
    (ha : r.heatLayer (generateHeatmapData b s.stationsData type) = .throwsAfter)
    (hn : s.heatmapLayer = none) (hf : ∀ l ∈ s.layers, l.id < s.nextId) :
    heatLayers (showHeatmap b r type s).layers =
      heatLayers s.layers ++
        [{ id := s.nextId, data := generateHeatmapData b s.stationsData type,
           gradient := getHeatmapGradient type }] ∧
    (∀ l ∈ (showHeatmap b r type s).layers, l.id < (showHeatmap b r type s).nextId) ∧
    (showHeatmap b r type s).heatmapLayer = none ∧
    (showHeatmap b r type s).nextId = s.nextId + 1 := by
  obtain ⟨h1, h2, h3⟩ := showHeatmap_of_throwsAfter b r type s hr hd ha
  have hc : (clearHeatmap { s with currentHeatmapType := some type }).layers = s.layers :=
    clearHeatmap_layers_of_none _ hn
  rw [hc] at h3
  refine ⟨?_, ?_, h1, h2⟩
  · rw [h3, heatLayers_addLayer_fresh _ _ (fun l hl => hf l hl)]
  · intro l hl
    rw [h3] at hl
    rw [h2]
    rcases mem_addLayer _ _ _ hl with hl | rfl
    · exact Nat.lt_succ_of_lt (hf l hl)
    · exact Nat.lt_succ_self _

theorem refreshData_AB_orphaning :
    heatLayers (refreshData decimalBuiltins orphaningRenderer
        (.response true (.object datasetAB)) MapManager.init).1.layers =
      [{ id := 2,
         data := [{ lat := .fin (31 / 5), lng := .fin (-151 / 2), intensity := .fin (13 / 20) }],
         gradient := getHeatmapGradient "temperature" }] ∧
    (∀ l ∈ (refreshData decimalBuiltins orphaningRenderer
        (.response true (.object datasetAB)) MapManager.init).1.layers,
      l.id < (refreshData decimalBuiltins orphaningRenderer
        (.response true (.object datasetAB)) MapManager.init).1.nextId) ∧
    (refreshData decimalBuiltins orphaningRenderer
        (.response true (.object datasetAB)) MapManager.init).1.heatmapLayer = none ∧
    (refreshData decimalBuiltins orphaningRenderer
        (.response true (.object datasetAB)) MapManager.init).1.nextId = 3 ∧
    (refreshData decimalBuiltins orphaningRenderer
        (.response true (.object datasetAB)) MapManager.init).1.stationsData =
      .object datasetAB := by
  have hm := markerError_datasetAB orphaningRenderer rfl
  have hr := refreshData_of_no_error decimalBuiltins orphaningRenderer datasetAB
    MapManager.init rfl hm
  have hf := addStationsToMap_fields decimalBuiltins orphaningRenderer
    { MapManager.init with stationsData := .object datasetAB }
  have ha := addStationsToMap_of_no_error decimalBuiltins orphaningRenderer datasetAB
    MapManager.init hm
  have hi := OverlayInv_addStationsToMap decimalBuiltins orphaningRenderer
    { MapManager.init with stationsData := .object datasetAB }
    (OverlayInv_stationsData _ _ OverlayInv_init)
  have hsd : (addStationsToMap decimalBuiltins orphaningRenderer
      { MapManager.init with stationsData := .object datasetAB }).1.stationsData =
      .object datasetAB := hf.2.2.1
  have hl : (addStationsToMap decimalBuiltins orphaningRenderer
      { MapManager.init with stationsData := .object datasetAB }).1.heatmapLayer = none :=
    hf.1
  have hn : (addStationsToMap decimalBuiltins orphaningRenderer
      { MapManager.init with stationsData := .object datasetAB }).1.nextId = 2 := by
    rw [ha.2.2, stationMarkers_AB_length]; rfl
  obtain ⟨o1, o2, o3, o4⟩ := showHeatmap_orphan decimalBuiltins orphaningRenderer "temperature"
    (addStationsToMap decimalBuiltins orphaningRenderer
      { MapManager.init with stationsData := .object datasetAB }).1 rfl
    (by rw [hsd, generateHeatmapData_AB_temperature]; simp) rfl hl hi.2.1
  rw [hr]
  simp only
  refine ⟨?_, o2, o3, ?_, ?_⟩
  · rw [o1, hi.1, hl, hsd, generateHeatmapData_AB_temperature, hn]; rfl
  · rw [o4, hn]
  · rw [showHeatmap_stationsData]; exact hsd

/-- C3 (evaluation at the failing input): when the plugin adds its layers,
after a successful refresh with the dataset of stations A and B,
`showHeatmap('temperature')` followed by `showHeatmap('humidity')` leaves
exactly one heat layer on the map, the humidity one, referenced by
`heatmapLayer`; but when `L.heatLayer(...).addTo(map)` throws after the map has
registered the layer, the refresh (which shows the temperature heatmap) and
`showHeatmap('humidity')` leave two heat layers on the map, referenced by no
field: `heatmapLayer` is `null`, and `clearHeatmap` removes none of them. -/
theorem two_heat_layers_when_addTo_throws :
    (heatLayers (run decimalBuiltins workingRenderer MapManager.init
          [.refreshData (.response true (.object datasetAB)), .showHeatmap "temperature",
           .showHeatmap "humidity"]).layers =
        [{ id := 4,
           data := [{ lat := .fin (31 / 5), lng := .fin (-151 / 2), intensity := .fin (3 / 5) },
                    { lat := .fin (63 / 10), lng := .fin (-378 / 5), intensity := .fin (2 / 5) }],
           gradient := getHeatmapGradient "humidity" }] ∧
      (run decimalBuiltins workingRenderer MapManager.init
          [.refreshData (.response true (.object datasetAB)), .showHeatmap "temperature",
           .showHeatmap "humidity"]).heatmapLayer =
        some { id := 4,
               data := [{ lat := .fin (31 / 5), lng := .fin (-151 / 2),
                          intensity := .fin (3 / 5) },
                        { lat := .fin (63 / 10), lng := .fin (-378 / 5),
                          intensity := .fin (2 / 5) }],
               gradient := getHeatmapGradient "humidity" }) ∧
    (heatLayers (run decimalBuiltins orphaningRenderer MapManager.init
          [.refreshData (.response true (.object datasetAB)),
           .showHeatmap "humidity"]).layers =
        [{ id := 2,
           data := [{ lat := .fin (31 / 5), lng := .fin (-151 / 2),
                      intensity := .fin (13 / 20) }],
           gradient := getHeatmapGradient "temperature" },
         { id := 3,
           data := [{ lat := .fin (31 / 5), lng := .fin (-151 / 2), intensity := .fin (3 / 5) },
                    { lat := .fin (63 / 10), lng := .fin (-378 / 5), intensity := .fin (2 / 5) }],
           gradient := getHeatmapGradient "humidity" }] ∧
      (run decimalBuiltins orphaningRenderer MapManager.init
          [.refreshData (.response true (.object datasetAB)),
           .showHeatmap "humidity"]).heatmapLayer = none ∧
      heatLayers (clearHeatmap (run decimalBuiltins orphaningRenderer MapManager.init
          [.refreshData (.response true (.object datasetAB)),
           .showHeatmap "humidity"])).layers =
        heatLayers (run decimalBuiltins orphaningRenderer MapManager.init
          [.refreshData (.response true (.object datasetAB)),
           .showHeatmap "humidity"]).layers) := by
  constructor
  · have hw : ∀ data, workingRenderer.heatLayer data ≠ .throwsAfter := by
      intro data; simp [workingRenderer]
    have hi := OverlayInv_run decimalBuiltins workingRenderer
      [.refreshData (.response true (.object datasetAB)), .showHeatmap "temperature",
       .showHeatmap "humidity"] MapManager.init hw OverlayInv_init
    have h1 := refreshData_AB_working MapManager.init rfl
    have hsd2 : (showHeatmap decimalBuiltins workingRenderer "temperature"
        (refreshData decimalBuiltins workingRenderer (.response true (.object datasetAB))
          MapManager.init).1).stationsData = .object datasetAB := by
      rw [showHeatmap_stationsData]; exact h1.2.2.2
    have h2 := showHeatmap_of_added decimalBuiltins workingRenderer "temperature"
      (refreshData decimalBuiltins workingRenderer (.response true (.object datasetAB))
        MapManager.init).1 rfl
      (by rw [h1.2.2.2, generateHeatmapData_AB_temperature]; simp) rfl
    have h3 := showHeatmap_humidity_AB_working _ hsd2
    have hl : (run decimalBuiltins workingRenderer MapManager.init
        [.refreshData (.response true (.object datasetAB)), .showHeatmap "temperature",
         .showHeatmap "humidity"]).heatmapLayer =
        some { id := 4,
               data := [{ lat := .fin (31 / 5), lng := .fin (-151 / 2),
                          intensity := .fin (3 / 5) },
                        { lat := .fin (63 / 10), lng := .fin (-378 / 5),
                          intensity := .fin (2 / 5) }],
               gradient := getHeatmapGradient "humidity" } := by
      simp only [run, List.foldl_cons, List.foldl_nil, step]
      rw [h3.1, h2.2, h1.2.1]; rfl
    exact ⟨by rw [hi.1, hl]; rfl, hl⟩
  · obtain ⟨r1, r2, r3, r4, r5⟩ := refreshData_AB_orphaning
    obtain ⟨o1, _, o3, _⟩ := showHeatmap_orphan decimalBuiltins orphaningRenderer "humidity"
      (refreshData decimalBuiltins orphaningRenderer (.response true (.object datasetAB))
        MapManager.init).1 rfl
      (by rw [r5, generateHeatmapData_AB_humidity]; simp) rfl r3 r2
    have hrun : run decimalBuiltins orphaningRenderer MapManager.init
        [.refreshData (.response true (.object datasetAB)), .showHeatmap "humidity"] =
        showHeatmap decimalBuiltins orphaningRenderer "humidity"
          (refreshData decimalBuiltins orphaningRenderer (.response true (.object datasetAB))
            MapManager.init).1 := by
      simp only [run, List.foldl_cons, List.foldl_nil, step]
    rw [hrun]
    refine ⟨?_, o3, ?_⟩
    · rw [o1, r1, r5, generateHeatmapData_AB_humidity, r4]; rfl
    · rw [clearHeatmap_layers_of_none _ o3]

end MapJS
